import Mathlib

/-!
# Calendar wallpaper handler (`api/wallpaper.js`)

A shallow embedding of the request handler of `api/wallpaper.js` and the
properties of its date arithmetic, catalog lookups, colour selection and
layout construction.

Modelling conventions.

* JavaScript numbers are exact: a finite number is a fraction of two integers,
  so the rounding of IEEE doubles is not represented. `NaN`, the infinities and
  `undefined` (in number position) are separate constructors of `Num`.
* A quantity that the program only ever holds as an integer or `NaN` (year,
  month, day, time value of a `Date`) is an `Option Int`, `none` being `NaN`.
* `Date` follows ECMAScript's day arithmetic (`DayFromYear`, `YearFromTime`,
  `MonthFromTime`, `DateFromTime`, `WeekDay`, `MakeDay`, `TimeClip`) with the
  local time zone equal to UTC, which is what the edge runtime provides.
* A property read `TABLE[key]` on an object literal sees the object's own
  properties and those inherited from `Object.prototype`.
-/

namespace Wallpaper

/-! ## JavaScript numbers -/

/-- A JavaScript value in number position: `undefined`, `NaN`, an infinity
(`inf true` is `-Infinity`) or the finite number `num / den` with `den > 0`. -/
inductive Num where
  | undefined : Num
  | nan : Num
  | inf (neg : Bool) : Num
  | fin (num : Int) (den : Int) : Num
  deriving DecidableEq, Repr

namespace Num

/-- The integer `n` as a number. -/
def ofInt (n : Int) : Num := fin n 1

/-- An integer-or-NaN quantity as a number. -/
def ofOpt : Option Int → Num
  | some n => fin n 1
  | none => nan

/-- JavaScript `a + b` on numbers (`undefined` converts to `NaN`). -/
def add : Num → Num → Num
  | fin a b, fin c d => fin (a * d + c * b) (b * d)
  | inf s, fin _ _ => inf s
  | fin _ _, inf s => inf s
  | inf s, inf t => if s = t then inf s else nan
  | _, _ => nan

/-- JavaScript unary minus. -/
def neg : Num → Num
  | fin a b => fin (-a) b
  | inf s => inf (!s)
  | _ => nan

/-- JavaScript `a - b`. -/
def sub (x y : Num) : Num := add x (neg y)

/-- JavaScript `a * b`. -/
def mul : Num → Num → Num
  | fin a b, fin c d => fin (a * c) (b * d)
  | inf s, fin c _ => if c = 0 then nan else inf (s != decide (c < 0))
  | fin a _, inf s => if a = 0 then nan else inf (s != decide (a < 0))
  | inf s, inf t => inf (s != t)
  | _, _ => nan

/-- JavaScript `a / b`. -/
def div : Num → Num → Num
  | fin a b, fin c d =>
    if c = 0 then (if a = 0 then nan else inf (decide (a < 0)))
    else if 0 < c then fin (a * d) (b * c)
    else fin (-(a * d)) (-(b * c))
  | inf s, fin c _ => inf (s != decide (c < 0))
  | fin _ _, inf _ => fin 0 1
  | _, _ => nan

/-- `Math.round`: the nearest integer, halves rounded up. -/
def round : Num → Num
  | fin a b => fin ((2 * a + b) / (2 * b)) 1
  | inf s => inf s
  | _ => nan

/-- `Math.max(a, b)`: `NaN` as soon as one argument is `NaN`. -/
def max : Num → Num → Num
  | fin a b, fin c d => if a * d < c * b then fin c d else fin a b
  | inf false, fin _ _ => inf false
  | fin _ _, inf false => inf false
  | inf true, fin c d => fin c d
  | fin a b, inf true => fin a b
  | inf s, inf t => inf (s && t)
  | _, _ => nan

/-- JavaScript `a > 0`: false for `NaN`. -/
def gtZero : Num → Bool
  | fin a _ => decide (0 < a)
  | inf s => !s
  | _ => false

/-- The rational value of a finite number. -/
def toRat : Num → Option ℚ
  | fin a b => some ((a : ℚ) / (b : ℚ))
  | _ => none

/-- The number is a finite integer-valued one, and `n` is its value. -/
def toInt : Num → Option Int
  | fin a b => if a % b = 0 then some (a / b) else none
  | _ => none

end Num

/-! ## Query parameters and number parsing -/

/-- The expression `searchParams.get(name) || dflt`: an absent parameter is
`null`, and `null` and the empty string are falsy. -/
def paramOr (v : Option String) (dflt : String) : String :=
  match v with
  | none => dflt
  | some s => if s = "" then dflt else s

/-- ECMAScript `StrWhiteSpaceChar`: white space and line terminators. -/
def isStrWhiteSpace (c : Char) : Bool :=
  let n := c.toNat
  n = 0x09 || n = 0x0A || n = 0x0B || n = 0x0C || n = 0x0D || n = 0x20 || n = 0xA0 ||
  n = 0x1680 || (0x2000 ≤ n && n ≤ 0x200A) || n = 0x2028 || n = 0x2029 || n = 0x202F ||
  n = 0x205F || n = 0x3000 || n = 0xFEFF

/-- The value of a character as a digit in bases up to 36. -/
def digitVal (c : Char) : Option Nat :=
  let n := c.toNat
  if 48 ≤ n ∧ n ≤ 57 then some (n - 48)
  else if 97 ≤ n ∧ n ≤ 122 then some (n - 97 + 10)
  else if 65 ≤ n ∧ n ≤ 90 then some (n - 65 + 10)
  else none

/-- The character is a digit of base `radix`. -/
def isDigitIn (radix : Nat) (c : Char) : Bool :=
  match digitVal c with
  | some v => decide (v < radix)
  | none => false

/-- The value of a digit string in base `radix`. -/
def digitsVal (radix : Nat) (ds : List Char) : Nat :=
  ds.foldl (fun acc c => acc * radix + (digitVal c).getD 0) 0

/-- Split an optional leading sign off: the flag is true for `-`. -/
def splitSign : List Char → Bool × List Char
  | '-' :: r => (true, r)
  | '+' :: r => (false, r)
  | cs => (false, cs)

/-- JavaScript `parseInt(s)` without a radix: leading white space, an optional
sign, an optional `0x` prefix, then the longest run of digits; `none` is
`NaN`. -/
def parseInt (s : String) : Option Int :=
  let cs := s.data.dropWhile isStrWhiteSpace
  let (neg, cs) := splitSign cs
  let (radix, cs) : Nat × List Char :=
    match cs with
    | '0' :: 'x' :: r => (16, r)
    | '0' :: 'X' :: r => (16, r)
    | _ => (10, cs)
  let ds := cs.takeWhile (isDigitIn radix)
  if ds.isEmpty then none
  else some (if neg then -(digitsVal radix ds : Int) else (digitsVal radix ds : Int))

/-- The exponent part of a decimal literal: `e` or `E`, an optional sign and at
least one digit; zero when the part is absent or incomplete. -/
def parseExponent : List Char → Int
  | c :: r =>
    if c = 'e' ∨ c = 'E' then
      let (neg, r) := splitSign r
      let ds := r.takeWhile (isDigitIn 10)
      if ds.isEmpty then 0
      else if neg then -(digitsVal 10 ds : Int) else (digitsVal 10 ds : Int)
    else 0
  | [] => 0

/-- The number `m * 10 ^ e` as a fraction. -/
def scale10 (m : Int) (e : Int) : Num :=
  if 0 ≤ e then Num.fin (m * 10 ^ e.toNat) 1 else Num.fin m (10 ^ (-e).toNat)

/-- JavaScript `parseFloat(s)`: leading white space, then the longest prefix
that is a decimal literal (`Infinity`, or digits with an optional fraction and
exponent, each optionally signed); `NaN` when there is none. -/
def parseFloat (s : String) : Num :=
  let cs := s.data.dropWhile isStrWhiteSpace
  let (neg, cs) := splitSign cs
  if "Infinity".data.isPrefixOf cs then Num.inf neg
  else
    let ip := cs.takeWhile (isDigitIn 10)
    let r1 := cs.dropWhile (isDigitIn 10)
    let (fp, r2) : List Char × List Char :=
      match r1 with
      | '.' :: r => (r.takeWhile (isDigitIn 10), r.dropWhile (isDigitIn 10))
      | _ => ([], r1)
    if ip.isEmpty && fp.isEmpty then Num.nan
    else
      let m : Int := digitsVal 10 (ip ++ fp)
      scale10 (if neg then -m else m) (parseExponent r2 - fp.length)

/-! ## Property lookup on object literals -/

/-- The property names every object inherits from `Object.prototype`. All of
them hold a function, except `__proto__`, which reads as `Object.prototype`
itself; every one is truthy, none is iterable and none has a property `w`,
`h` or an index. -/
def objectPrototypeKeys : List String :=
  ["constructor", "__defineGetter__", "__defineSetter__", "hasOwnProperty",
   "__lookupGetter__", "__lookupSetter__", "isPrototypeOf", "propertyIsEnumerable",
   "toString", "valueOf", "__proto__", "toLocaleString"]

/-- The outcome of reading `TABLE[key]`: an entry of the literal, a value
inherited from `Object.prototype`, or `undefined`. -/
inductive Lookup (α : Type) where
  | own (v : α) : Lookup α
  | inherited (key : String) : Lookup α
  | missing : Lookup α
  deriving DecidableEq, Repr

/-- The property read `TABLE[key]` on an object literal with the given entries. -/
def jsGet {α : Type} (table : List (String × α)) (key : String) : Lookup α :=
  match table.lookup key with
  | some v => Lookup.own v
  | none => if key ∈ objectPrototypeKeys then Lookup.inherited key else Lookup.missing

/-- The expression `a || b` on lookup results: entries of the catalogs and
inherited values are truthy, `undefined` is falsy. -/
def jsOr {α : Type} (a b : Lookup α) : Lookup α :=
  match a with
  | Lookup.missing => b
  | x => x

/-! ## ECMAScript date arithmetic -/

/-- Milliseconds per day. -/
def msPerDay : Int := 86400000

/-- ECMAScript `Day(t)`: the day number of a time value. -/
def Day (t : Int) : Int := t / msPerDay

/-- ECMAScript `DayFromYear(y)`: the day number of 1 January of year `y`. -/
def DayFromYear (y : Int) : Int :=
  365 * (y - 1970) + (y - 1969) / 4 - (y - 1901) / 100 + (y - 1601) / 400

/-- ECMAScript leap-year test used by `DaysInYear` and `InLeapYear`. -/
def InLeapYear (y : Int) : Bool :=
  decide (y % 4 = 0) && (decide (y % 100 ≠ 0) || decide (y % 400 = 0))

/-- ECMAScript `YearFromTime` on day numbers: the largest year whose first day
is not after `day`, found from an estimate that is off by at most one. -/
def YearFromDay (day : Int) : Int :=
  let y0 := (400 * day) / 146097 + 1970
  if DayFromYear (y0 + 1) ≤ day then y0 + 1
  else if day < DayFromYear y0 then y0 - 1
  else y0

/-- The day within the year on which month `mn` (0-based) starts. -/
def monthStart (leap : Bool) (mn : Int) : Int :=
  let l : Int := if leap then 1 else 0
  if mn ≤ 0 then 0
  else if mn = 1 then 31
  else if mn = 2 then 59 + l
  else if mn = 3 then 90 + l
  else if mn = 4 then 120 + l
  else if mn = 5 then 151 + l
  else if mn = 6 then 181 + l
  else if mn = 7 then 212 + l
  else if mn = 8 then 243 + l
  else if mn = 9 then 273 + l
  else if mn = 10 then 304 + l
  else 334 + l

/-- The month table of ECMAScript `MonthFromTime`: the month (0 is January)
of the day `d` within a leap or common year. -/
def monthOfYearDay (leap : Bool) (d : Int) : Int :=
  let l : Int := if leap then 1 else 0
  if d < 31 then 0
  else if d < 59 + l then 1
  else if d < 90 + l then 2
  else if d < 120 + l then 3
  else if d < 151 + l then 4
  else if d < 181 + l then 5
  else if d < 212 + l then 6
  else if d < 243 + l then 7
  else if d < 273 + l then 8
  else if d < 304 + l then 9
  else if d < 334 + l then 10
  else 11

/-- ECMAScript `MonthFromTime` on day numbers (0 is January). -/
def MonthFromDay (day : Int) : Int :=
  let y := YearFromDay day
  monthOfYearDay (InLeapYear y) (day - DayFromYear y)

/-- ECMAScript `DateFromTime` on day numbers: the day of the month, from 1. -/
def DateFromDay (day : Int) : Int :=
  let y := YearFromDay day
  day - DayFromYear y - monthStart (InLeapYear y) (MonthFromDay day) + 1

/-- ECMAScript `WeekDay` on day numbers: 0 is Sunday, 6 is Saturday. -/
def WeekDay (day : Int) : Int := (day + 4) % 7

/-- ECMAScript `MakeDay(year, month, date)`: months outside 0..11 carry into
the year, and the date counts on from the first of the month. -/
def MakeDay (year month date : Int) : Int :=
  let ym := year + month / 12
  let mn := month % 12
  DayFromYear ym + monthStart (InLeapYear ym) mn + date - 1

/-- ECMAScript `TimeClip` on an integral time value: beyond 8.64e15 ms it is
`NaN`. -/
def TimeClip (t : Int) : Option Int :=
  if -8640000000000000 ≤ t ∧ t ≤ 8640000000000000 then some t else none

/-- The time value of `new Date(value)`, that is `TimeClip` of a number: `NaN`
for a non-finite number and for one beyond 8.64e15 in absolute value, else the
number truncated toward zero. -/
def dateOfValue : Num → Option Int
  | Num.fin a b =>
    if -8640000000000000 * b ≤ a ∧ a ≤ 8640000000000000 * b then some (Int.tdiv a b)
    else none
  | _ => none

/-- The time value of `new Date(year, month, date)`. A year from 0 to 99
stands for 1900 + year. `NaN` arguments give an invalid date. -/
def newDate (year month date : Option Int) : Option Int :=
  match year, month, date with
  | some y, some m, some d =>
    let yr := if 0 ≤ y ∧ y ≤ 99 then 1900 + y else y
    TimeClip (MakeDay yr m d * msPerDay)
  | _, _, _ => none

/-- The method `getFullYear()`. -/
def getFullYear (t : Option Int) : Option Int := t.map (fun v => YearFromDay (Day v))

/-- The method `getMonth()`, 0-based. -/
def getMonth (t : Option Int) : Option Int := t.map (fun v => MonthFromDay (Day v))

/-- The method `getDate()`: the day of the month. -/
def getDate (t : Option Int) : Option Int := t.map (fun v => DateFromDay (Day v))

/-- The method `getDay()`: the day of the week, 0 is Sunday. -/
def getDay (t : Option Int) : Option Int := t.map (fun v => WeekDay (Day v))

/-! ## Catalogs -/

/-- A device profile of `MODELS`. -/
structure Model where
  w : Int
  h : Int
  deriving DecidableEq, Repr

/-- The table `MODELS`: iPhone screen resolutions. -/
def MODELS : List (String × Model) :=
  [("iphone_16_pro", ⟨1206, 2622⟩),
   ("iphone_16", ⟨1179, 2556⟩),
   ("iphone_15_pro", ⟨1179, 2556⟩),
   ("iphone_15", ⟨1179, 2556⟩),
   ("iphone_14_pro", ⟨1179, 2556⟩),
   ("iphone_14", ⟨1170, 2532⟩),
   ("iphone_13_pro", ⟨1170, 2532⟩),
   ("iphone_13", ⟨1170, 2532⟩),
   ("iphone_se", ⟨750, 1334⟩)]

/-- An entry of `THEMES`, the array `[bg, pastColor, todayColor, futureColor,
textColor]`. -/
structure Theme where
  bg : String
  pastCol : String
  todayCol : String
  futureCol : String
  textCol : String
  deriving DecidableEq, Repr

/-- The table `THEMES`: colour themes. -/
def THEMES : List (String × Theme) :=
  [("graphite_orange", ⟨"#111111", "#ff8c4299", "#ff8c42", "#2a2a2a", "#ffffff"⟩),
   ("graphite_yellow", ⟨"#111111", "#e8ff4799", "#e8ff47", "#2a2a2a", "#ffffff"⟩),
   ("graphite_green", ⟨"#111111", "#4fffb099", "#4fffb0", "#2a2a2a", "#ffffff"⟩),
   ("graphite_blue", ⟨"#111111", "#47b8ff99", "#47b8ff", "#2a2a2a", "#ffffff"⟩),
   ("graphite_red", ⟨"#111111", "#ff474799", "#ff4747", "#2a2a2a", "#ffffff"⟩),
   ("graphite_pink", ⟨"#111111", "#ff47c899", "#ff47c8", "#2a2a2a", "#ffffff"⟩),
   ("white_orange", ⟨"#f5f5f5", "#ff8c4299", "#ff8c42", "#e0e0e0", "#111111"⟩),
   ("white_yellow", ⟨"#f5f5f5", "#c8a80099", "#c8a800", "#e0e0e0", "#111111"⟩),
   ("white_blue", ⟨"#f5f5f5", "#3b82f699", "#3b82f6", "#e0e0e0", "#111111"⟩),
   ("white_green", ⟨"#f5f5f5", "#22c55e99", "#22c55e", "#e0e0e0", "#111111"⟩),
   ("black_white", ⟨"#000000", "#ffffff99", "#ffffff", "#333333", "#ffffff"⟩),
   ("pure_white", ⟨"#ffffff", "#88888899", "#333333", "#eeeeee", "#111111"⟩)]

/-- The table `MONTHS`: month abbreviations per language. -/
def MONTHS : List (String × List String) :=
  [("uk", ["Січ", "Лют", "Бер", "Кві", "Тра", "Чер", "Лип", "Сер", "Вер", "Жов", "Лис", "Гру"]),
   ("ru", ["Янв", "Фев", "Мар", "Апр", "Май", "Июн", "Июл", "Авг", "Сен", "Окт", "Ноя", "Дек"]),
   ("en", ["Jan", "Feb", "Mar", "Apr", "May", "Jun", "Jul", "Aug", "Sep", "Oct", "Nov", "Dec"]),
   ("pl", ["Sty", "Lut", "Mar", "Kwi", "Maj", "Cze", "Lip", "Sie", "Wrz", "Paź", "Lis", "Gru"]),
   ("de", ["Jan", "Feb", "Mär", "Apr", "Mai", "Jun", "Jul", "Aug", "Sep", "Okt", "Nov", "Dez"])]

/-- The table `WEEKDAYS`: weekday abbreviations per language, Monday first. -/
def WEEKDAYS : List (String × List String) :=
  [("uk", ["Пн", "Вт", "Ср", "Чт", "Пт", "Сб", "Нд"]),
   ("ru", ["Пн", "Вт", "Ср", "Чт", "Пт", "Сб", "Вс"]),
   ("en", ["Mo", "Tu", "We", "Th", "Fr", "Sa", "Su"]),
   ("pl", ["Pn", "Wt", "Śr", "Cz", "Pt", "So", "Nd"]),
   ("de", ["Mo", "Di", "Mi", "Do", "Fr", "Sa", "So"])]

/-- The literal `sizeMap` of the handler: size multipliers as fractions. -/
def sizeMap : List (String × Num) :=
  [("small", Num.fin 75 100), ("standard", Num.fin 1 1), ("large", Num.fin 13 10)]

/-! ## Date helpers of the handler -/

/-- The function `getDayOfYear(date)`: whole days since the day before
1 January of the date's year, as `new Date(year, 0, 0)` resolves it. -/
def getDayOfYear (date : Option Int) : Option Int :=
  let start := newDate (getFullYear date) (some 0) (some 0)
  match date, start with
  | some t, some s => some ((t - s) / 86400000)
  | _, _ => none

/-- The function `getDaysInYear(year)`; `%` is the truncating remainder and a
`NaN` year fails both tests. -/
def getDaysInYear (year : Option Int) : Int :=
  match year with
  | some y =>
    if (y.tmod 4 = 0 ∧ y.tmod 100 ≠ 0) ∨ y.tmod 400 = 0 then 366 else 365
  | none => 365

/-- The function `getDateInTimezone(tzOffset)` at the instant `nowMs`; the
runtime's own zone offset `getTimezoneOffset()` is 0. -/
def getDateInTimezone (nowMs : Int) (tzOffset : Num) : Option Int :=
  let utc := Num.add (Num.ofInt nowMs) (Num.mul (Num.ofInt 0) (Num.ofInt 60000))
  dateOfValue (Num.add utc (Num.mul tzOffset (Num.ofInt 3600000)))

/-! ## Calendar grid -/

/-- An entry of `totalCells`: `{ month, cells, daysInMonth, offset }`; a cell is
`none` for `null`. -/
structure MonthCells where
  month : Int
  cells : List (Option Int)
  daysInMonth : Option Int
  offset : Option Int
  deriving DecidableEq, Repr

/-- The number of iterations of a loop counting up to a bound that may be
`NaN`: a comparison with `NaN` is false. -/
def loopCount (bound : Option Int) : Nat :=
  match bound with
  | some n => n.toNat
  | none => 0

/-- The body of the month loop of the handler for month `m`. -/
def monthCells (year : Option Int) (m : Int) : MonthCells :=
  let daysInMonth := getDate (newDate year (some (m + 1)) (some 0))
  let firstDay := getDay (newDate year (some m) (some 1))
  let offset := firstDay.map (fun f => (f + 6).tmod 7)
  let nulls : List (Option Int) := List.replicate (loopCount offset) none
  let days : List (Option Int) :=
    (List.range (loopCount daysInMonth)).map (fun (i : Nat) => some ((i : Int) + 1))
  { month := m, cells := nulls ++ days, daysInMonth := daysInMonth, offset := offset }

/-- The array `totalCells` after the month loop. -/
def totalCells (year : Option Int) : List MonthCells :=
  (List.range 12).map (fun (m : Nat) => monthCells year (m : Int))

/-- JavaScript `a < b` with a possibly-`NaN` right operand. -/
def jsLt (a : Int) (b : Option Int) : Bool :=
  match b with
  | some n => decide (a < n)
  | none => false

/-- JavaScript `a > b` with a possibly-`NaN` right operand. -/
def jsGt (a : Int) (b : Option Int) : Bool :=
  match b with
  | some n => decide (a > n)
  | none => false

/-- JavaScript `a === b` with a possibly-`NaN` right operand. -/
def jsEq (a : Int) (b : Option Int) : Bool :=
  match b with
  | some n => decide (a = n)
  | none => false

/-- The inner function `isWeekend(m, d)`. -/
def isWeekend (year : Option Int) (m d : Int) : Bool :=
  let dow := getDay (newDate year (some m) (some d))
  decide (dow = some 0) || decide (dow = some 6)

/-- The inner function `getDayState(m, d)`, for the current `month` and `day`. -/
def getDayState (month day : Option Int) (m d : Int) : String :=
  if jsLt m month then "past"
  else if jsGt m month then "future"
  else if jsLt d day then "past"
  else if jsEq d day then "today"
  else "future"

/-- The inner function `getColor(state, m, d)`. -/
def getColor (weekendMode : String) (t : Theme) (year : Option Int)
    (state : String) (m d : Int) : String :=
  if state = "today" then t.todayCol
  else if state = "past" then
    if weekendMode ≠ "none" ∧ isWeekend year m d = true then t.todayCol ++ "66"
    else t.pastCol
  else if weekendMode = "all" ∧ isWeekend year m d = true then t.futureCol ++ "aa"
  else t.futureCol

/-! ## Layout tree -/

/-- A value of a style property. -/
inductive CssVal where
  | str (s : String) : CssVal
  | px (n : Num) : CssVal
  | num (n : Num) : CssVal
  | rgbaBlack (alpha : Num) : CssVal
  | border1 (color : String) : CssVal
  | pad0 (n : Num) : CssVal
  deriving DecidableEq, Repr

/-- A style object: property names with their values, in source order. -/
abbrev Style := List (String × CssVal)

/-- The child of a leaf element: nothing, a number, a string, or `undefined`
(which renders as nothing). -/
inductive Content where
  | empty : Content
  | num (n : Num) : Content
  | text (s : String) : Content
  | undef : Content
  deriving DecidableEq, Repr

/-- A `div` without element children. -/
structure Elem where
  style : Style
  content : Content
  deriving DecidableEq, Repr

/-- The wrapper `div` of one cell of a week row, keyed by its column. -/
structure CellBox where
  key : Nat
  style : Style
  inner : Elem
  deriving DecidableEq, Repr

/-- The `div` of one week row, keyed by its row number. -/
structure WeekRow where
  key : Nat
  style : Style
  cells : List CellBox
  deriving DecidableEq, Repr

/-- The `div` of one month: its name and its grid of week rows. -/
structure MonthBlock where
  key : Int
  style : Style
  label : Elem
  gridStyle : Style
  rows : List WeekRow
  deriving DecidableEq, Repr

/-- The root element `image`. -/
structure Image where
  style : Style
  yearLabel : Elem
  monthsStyle : Style
  months : List MonthBlock
  footer : Option Elem
  deriving DecidableEq, Repr

/-- The arguments of `new ImageResponse(image, options)`. -/
structure Response where
  image : Image
  width : Num
  height : Num
  headers : List (String × String)
  deriving DecidableEq, Repr

/-- The value of a style property, the last assignment winning. -/
def Style.get (s : Style) (prop : String) : Option CssVal :=
  s.reverse.lookup prop

/-! ## The handler -/

/-- The nine query parameters; `none` is an absent parameter. -/
structure Query where
  model : Option String
  style : Option String
  calendar_size : Option String
  weekend_mode : Option String
  opacity : Option String
  theme : Option String
  lang : Option String
  timezone : Option String
  footer : Option String
  deriving DecidableEq, Repr

/-- The query of a request without parameters. -/
def Query.empty : Query :=
  { model := Option.none, style := Option.none, calendar_size := Option.none,
    weekend_mode := Option.none, opacity := Option.none, theme := Option.none,
    lang := Option.none, timezone := Option.none, footer := Option.none }

/-- A number in a template string; a fraction that is not an integer is
written `num/den`, its decimal expansion not being represented. -/
def Num.fmt : Num → String
  | Num.undefined => "undefined"
  | Num.nan => "NaN"
  | Num.inf false => "Infinity"
  | Num.inf true => "-Infinity"
  | Num.fin a b => if a % b = 0 then toString (a / b) else toString a ++ "/" ++ toString b

/-- The variables the inner functions of the handler close over. -/
structure Env where
  style : String
  weekendMode : String
  theme : Theme
  year : Option Int
  month : Option Int
  day : Option Int
  dotSize : Num
  deriving DecidableEq, Repr

/-- The inner function `renderCell(m, d, state)`. -/
def renderCell (e : Env) (m d : Int) (state : String) : Elem :=
  let color := getColor e.weekendMode e.theme e.year state m d
  let isToday := decide (state = "today")
  let futureCol := e.theme.futureCol
  if e.style = "numbers" ∨ e.style = "numbers_bold" then
    { style :=
        [("width", CssVal.px (Num.add e.dotSize (Num.ofInt 6))),
         ("height", CssVal.px (Num.add e.dotSize (Num.ofInt 6))),
         ("display", CssVal.str "flex"),
         ("alignItems", CssVal.str "center"),
         ("justifyContent", CssVal.str "center"),
         ("fontSize", CssVal.px (Num.round (Num.mul e.dotSize (Num.fin 7 10)))),
         ("fontWeight", CssVal.str (if e.style = "numbers_bold" then "700" else "400")),
         ("color", CssVal.str color),
         ("borderRadius", CssVal.str (if isToday then "50%" else "0")),
         ("background", CssVal.str (if isToday then color ++ "20" else "transparent"))],
      content := Content.num (Num.ofInt d) }
  else if e.style = "squares" ∨ e.style = "squares_rounded" then
    { style :=
        [("width", CssVal.px e.dotSize),
         ("height", CssVal.px e.dotSize),
         ("borderRadius",
            if e.style = "squares_rounded"
            then CssVal.px (Num.round (Num.mul e.dotSize (Num.fin 25 100)))
            else CssVal.str "2px"),
         ("background", CssVal.str (if state = "future" then "transparent" else color)),
         ("border", if state = "future" then CssVal.border1 futureCol else CssVal.str "none"),
         ("transform", CssVal.str (if isToday then "scale(1.2)" else "none"))],
      content := Content.empty }
  else if e.style = "lines" then
    { style :=
        [("width", CssVal.px (Num.round (Num.mul e.dotSize (Num.fin 25 100)))),
         ("height", CssVal.px e.dotSize),
         ("borderRadius", CssVal.str "2px"),
         ("background", CssVal.str (if state = "future" then futureCol else color)),
         ("transform", CssVal.str (if isToday then "scaleY(1.3)" else "none"))],
      content := Content.empty }
  else if e.style = "bars" then
    { style :=
        [("width", CssVal.px (Num.add e.dotSize (Num.ofInt 4))),
         ("height", CssVal.px (Num.round (Num.mul e.dotSize (Num.fin 5 10)))),
         ("borderRadius", CssVal.str "3px"),
         ("background", CssVal.str (if state = "future" then futureCol else color))],
      content := Content.empty }
  else
    let sz := if e.style = "dots_mini" then Num.round (Num.mul e.dotSize (Num.fin 7 10))
              else e.dotSize
    { style :=
        [("width", CssVal.px sz),
         ("height", CssVal.px sz),
         ("borderRadius", CssVal.str "50%"),
         ("background", CssVal.str (if state = "future" then "transparent" else color)),
         ("border", if state = "future" then CssVal.border1 futureCol else CssVal.str "none"),
         ("transform", CssVal.str (if isToday then "scale(1.25)" else "none"))],
      content := Content.empty }

/-- The destructuring `const { w, h } = value`: a function or
`Object.prototype` has neither property, and `undefined` cannot be
destructured. -/
def destructModel : Lookup Model → Except String (Num × Num)
  | Lookup.own v => Except.ok (Num.ofInt v.w, Num.ofInt v.h)
  | Lookup.inherited _ => Except.ok (Num.undefined, Num.undefined)
  | Lookup.missing => Except.error "TypeError: cannot destructure undefined"

/-- The destructuring `const [bg, pastCol, todayCol, futureCol, textCol] =
value`: it needs an iterable, which only the arrays of the table are. -/
def destructTheme : Lookup Theme → Except String Theme
  | Lookup.own t => Except.ok t
  | Lookup.inherited _ => Except.error "TypeError: value is not iterable"
  | Lookup.missing => Except.error "TypeError: undefined is not iterable"

/-- A looked-up value used as an operand of `*`: a function or
`Object.prototype` converts to `NaN`. -/
def operand : Lookup Num → Num
  | Lookup.own q => q
  | Lookup.inherited _ => Num.nan
  | Lookup.missing => Num.nan

/-- The child `months[m]`: an index into a function or `Object.prototype`
is `undefined`. -/
def monthName (months : Lookup (List String)) (m : Int) : Content :=
  match months with
  | Lookup.own l =>
    match l.get? m.toNat with
    | some s => Content.text s
    | none => Content.undef
  | _ => Content.undef

/-- The footer text chosen by the `if` chain on `footer`. -/
def footerText (footer : String) (daysLeft dayOfYear : Option Int)
    (percentLeft percentPassed : Num) : String :=
  if footer = "days_left" then (Num.ofOpt daysLeft).fmt ++ " днів залишилось"
  else if footer = "days_passed" then (Num.ofOpt dayOfYear).fmt ++ " днів пройдено"
  else if footer = "percent_left" then percentLeft.fmt ++ "% залишилось"
  else if footer = "percent_passed" then percentPassed.fmt ++ "% пройдено"
  else if footer = "days_left_percent_left" then
    (Num.ofOpt daysLeft).fmt ++ " днів · " ++ percentLeft.fmt ++ "% залишилось"
  else ""

/-- The object `bgStyle`: a black overlay when `opacity / 100 > 0`, else the
theme's background. -/
def bgStyle (opacity : Option Int) (bg : String) : Style :=
  let bgOpacity := Num.div (Num.ofOpt opacity) (Num.ofInt 100)
  if bgOpacity.gtZero then [("background", CssVal.rgbaBlack (Num.sub (Num.ofInt 1) bgOpacity))]
  else [("background", CssVal.str bg)]

/-- The style object of the root element: the fixed properties followed by the
spread `...bgStyle`. -/
def rootStyle (w h : Num) (opacity : Option Int) (bg : String) : Style :=
  [("width", CssVal.px w), ("height", CssVal.px h),
   ("display", CssVal.str "flex"), ("flexDirection", CssVal.str "column"),
   ("alignItems", CssVal.str "center"), ("justifyContent", CssVal.str "center")]
  ++ bgStyle opacity bg

/-- The statement `const { w, h } = MODELS[model] || MODELS['iphone_15_pro']`. -/
def resolveModel (model : String) : Except String (Num × Num) :=
  destructModel (jsOr (jsGet MODELS model) (jsGet MODELS "iphone_15_pro"))

/-- The statement `const [bg, pastCol, todayCol, futureCol, textCol] =
THEMES[theme] || THEMES['graphite_orange']`. -/
def resolveTheme (theme : String) : Except String Theme :=
  destructTheme (jsOr (jsGet THEMES theme) (jsGet THEMES "graphite_orange"))

/-- A list with the index of each element, as the second argument of a
`map` callback. -/
def indexed {α : Type} (l : List α) : List (Nat × α) :=
  (List.range l.length).zip l

/-- The week rows of a month: `cells` cut into slices of seven, a `null` cell
drawn as an empty placeholder and a day through `renderCell`. -/
def weekRows (e : Env) (gap : Num) (m : Int) (cells : List (Option Int)) : List WeekRow :=
  (List.range ((cells.length + 6) / 7)).map fun row =>
    { key := row,
      style := [("display", CssVal.str "flex"), ("gap", CssVal.px gap),
                ("alignItems", CssVal.str "center")],
      cells := (indexed ((cells.drop (row * 7)).take 7)).map fun (col, d) =>
        { key := col,
          style := [("display", CssVal.str "flex"), ("alignItems", CssVal.str "center"),
                    ("justifyContent", CssVal.str "center")],
          inner :=
            match d with
            | none =>
              { style := [("width", CssVal.px e.dotSize), ("height", CssVal.px e.dotSize)],
                content := Content.empty }
            | some d => renderCell e m d (getDayState e.month e.day m d) } }

/-- The `div` of one entry of `totalCells`. -/
def monthBlock (e : Env) (textCol : String) (months : Lookup (List String))
    (gap monthFontSize : Num) (mc : MonthCells) : MonthBlock :=
  let m := mc.month
  { key := m,
    style := [("display", CssVal.str "flex"), ("flexDirection", CssVal.str "column"),
              ("alignItems", CssVal.str "flex-start"),
              ("gap", CssVal.px (Num.round (Num.mul gap (Num.fin 5 10))))],
    label :=
      { style :=
          [("fontSize", CssVal.px monthFontSize),
           ("fontWeight", CssVal.str "600"),
           ("color", CssVal.str (if jsEq m e.month then e.theme.todayCol else textCol)),
           ("opacity", CssVal.num (if jsEq m e.month then Num.fin 1 1 else Num.fin 4 10)),
           ("marginBottom", CssVal.px (Num.round (Num.mul gap (Num.fin 5 10)))),
           ("letterSpacing", CssVal.str "0.08em"),
           ("textTransform", CssVal.str "uppercase")],
        content := monthName months m },
    gridStyle := [("display", CssVal.str "flex"), ("flexDirection", CssVal.str "column"),
                  ("gap", CssVal.px gap)],
    rows := weekRows e gap m mc.cells }

/-- The default export `handler(req)`, for the query of `req.url` and the
instant `nowMs` that `new Date()` reads. An exception thrown by the function
is `Except.error`. The local `weekdays`, which the function computes and never
uses, is left out. -/
def handler (q : Query) (nowMs : Int) : Except String Response := do
  let model := paramOr q.model "iphone_15_pro"
  let style := paramOr q.style "dots"
  let calSize := paramOr q.calendar_size "standard"
  let weekendMode := paramOr q.weekend_mode "weekends_only"
  let opacity := parseInt (paramOr q.opacity "0")
  let theme := paramOr q.theme "graphite_orange"
  let lang := paramOr q.lang "uk"
  let tz := parseFloat (paramOr q.timezone "2")
  let footer := paramOr q.footer "days_left_percent_left"
  let (w, h) ← resolveModel model
  let t ← resolveTheme theme
  let now := getDateInTimezone nowMs tz
  let year := getFullYear now
  let month := getMonth now
  let day := getDate now
  let dayOfYear := getDayOfYear now
  let daysInYear := getDaysInYear year
  let daysLeft := dayOfYear.map (fun n => daysInYear - n)
  let percentLeft :=
    Num.round (Num.mul (Num.div (Num.ofOpt daysLeft) (Num.ofInt daysInYear)) (Num.ofInt 100))
  let percentPassed := Num.sub (Num.ofInt 100) percentLeft
  let months := jsOr (jsGet MONTHS lang) (jsGet MONTHS "uk")
  let scale := operand (jsOr (jsGet sizeMap calSize) (Lookup.own (Num.fin 1 1)))
  let cellsOfYear := totalCells year
  let basePx := Num.round (Num.mul (Num.div w (Num.ofInt 30)) scale)
  let dotSize := Num.max (Num.ofInt 8) (Num.round (Num.mul basePx (Num.fin 55 100)))
  let gap := Num.max (Num.ofInt 4) (Num.round (Num.mul dotSize (Num.fin 35 100)))
  let text := footerText footer daysLeft dayOfYear percentLeft percentPassed
  let e : Env :=
    { style := style, weekendMode := weekendMode, theme := t,
      year := year, month := month, day := day, dotSize := dotSize }
  let monthFontSize := Num.round (Num.mul basePx (Num.fin 45 100))
  let footerFontSize := Num.round (Num.mul w (Num.fin 35 1000))
  let yearFontSize := Num.round (Num.mul w (Num.fin 8 100))
  let image : Image :=
    { style := rootStyle w h opacity t.bg,
      yearLabel :=
        { style :=
            [("fontSize", CssVal.px yearFontSize),
             ("fontWeight", CssVal.str "700"),
             ("color", CssVal.str t.textCol),
             ("marginBottom", CssVal.px (Num.round (Num.mul h (Num.fin 4 100)))),
             ("opacity", CssVal.num (Num.fin 15 100)),
             ("letterSpacing", CssVal.str "0.1em")],
          content := Content.num (Num.ofOpt year) },
      monthsStyle :=
        [("display", CssVal.str "flex"), ("flexWrap", CssVal.str "wrap"),
         ("justifyContent", CssVal.str "center"),
         ("gap", CssVal.px (Num.round (Num.mul w (Num.fin 5 100)))),
         ("padding", CssVal.pad0 (Num.round (Num.mul w (Num.fin 6 100))))],
      months := cellsOfYear.map (monthBlock e t.textCol months gap monthFontSize),
      footer :=
        if footer ≠ "none" then
          some
            { style :=
                [("marginTop", CssVal.px (Num.round (Num.mul h (Num.fin 5 100)))),
                 ("fontSize", CssVal.px footerFontSize),
                 ("color", CssVal.str t.textCol),
                 ("opacity", CssVal.num (Num.fin 5 10)),
                 ("letterSpacing", CssVal.str "0.06em"),
                 ("fontWeight", CssVal.str "300")],
              content := Content.text text }
        else none }
  return { image := image, width := w, height := h,
           headers := [("Cache-Control", "no-cache, no-store, must-revalidate"),
                       ("Content-Type", "image/png")] }

/-! ## Definitions used to state the properties -/

set_option maxRecDepth 100000

instance {ε α : Type} [DecidableEq ε] [DecidableEq α] : DecidableEq (Except ε α) := fun a b =>
  match a, b with
  | Except.ok x, Except.ok y =>
    if h : x = y then isTrue (by rw [h])
    else isFalse (fun h2 => by injection h2 with h3; exact h h3)
  | Except.error x, Except.error y =>
    if h : x = y then isTrue (by rw [h])
    else isFalse (fun h2 => by injection h2 with h3; exact h h3)
  | Except.ok _, Except.error _ => isFalse (fun h2 => by injection h2)
  | Except.error _, Except.ok _ => isFalse (fun h2 => by injection h2)

/-- The non-null cells of the grid, each with the month of its entry. -/
def dayCells (year : Option Int) : List (Int × Int) :=
  (totalCells year).flatMap fun mc => mc.cells.filterMap fun c => c.map fun d => (mc.month, d)

/-- The non-null cells whose state is `today`. -/
def todayCells (year month day : Option Int) : List (Int × Int) :=
  (dayCells year).filter fun c => decide (getDayState month day c.1 c.2 = "today")

/-- The instant 2026-11-05T00:00:00Z as a time value. -/
def sampleNow : Int := 1793836800000

/-- The Gregorian leap-year rule as the specification words it: divisible by
4 and either not divisible by 100 or divisible by 400. -/
def gregorianLeap (year : Int) : Prop :=
  4 ∣ year ∧ (¬ 100 ∣ year ∨ 400 ∣ year)

/-- The weekend test as the specification words it: the date that
`(year, m, d)` resolves to is a Saturday or a Sunday. -/
def isSatOrSun (year : Option Int) (m d : Int) : Prop :=
  getDay (newDate year (some m) (some d)) = some 6 ∨
  getDay (newDate year (some m) (some d)) = some 0

instance (year : Option Int) (m d : Int) : Decidable (isSatOrSun year m d) := by
  unfold isSatOrSun
  infer_instance

/-- The environment of the default request on 5 November 2026 with
`weekend_mode=all`. -/
def envAllDots : Env :=
  { style := "dots", weekendMode := "all",
    theme := ⟨"#111111", "#ff8c4299", "#ff8c42", "#2a2a2a", "#ffffff"⟩,
    year := some 2026, month := some 10, day := some 5, dotSize := Num.fin 21 1 }

/-- The environment of a request with `style=numbers&weekend_mode=all` on
5 November 2026. -/
def envAllNumbers : Env := { envAllDots with style := "numbers" }

/-- The length of month `m` (0-based) in a leap or common year. -/
def monthLen (leap : Bool) (m : Int) : Int :=
  if m = 1 then (if leap then 29 else 28)
  else if m = 3 ∨ m = 5 ∨ m = 8 ∨ m = 10 then 30
  else 31

/-- The length of month `m` (0-based) of year `y` in the Gregorian calendar. -/
def monthLength (y m : Int) : Int := monthLen (InLeapYear y) m

/-- A year that `new Date(year, m, d)` takes literally and whose days all lie
within the range of time values. -/
def regularYear (y : Int) : Prop :=
  (y < 0 ∨ 99 < y) ∧ -271820 ≤ y ∧ y ≤ 275759

instance (y : Int) : Decidable (regularYear y) := by
  unfold regularYear
  infer_instance

/-- The local `now` of the handler: the current date under the `timezone`
parameter. -/
def nowOf (q : Query) (nowMs : Int) : Option Int :=
  getDateInTimezone nowMs (parseFloat (paramOr q.timezone "2"))

/-- The local `daysLeft` of the handler, `daysInYear - dayOfYear`. -/
def daysLeft (now : Option Int) : Option Int :=
  (getDayOfYear now).map (fun n => getDaysInYear (getFullYear now) - n)

/-- The local `percentLeft` of the handler,
`Math.round((daysLeft / daysInYear) * 100)`. -/
def percentLeft (daysLeft : Option Int) (daysInYear : Int) : Num :=
  Num.round (Num.mul (Num.div (Num.ofOpt daysLeft) (Num.ofInt daysInYear)) (Num.ofInt 100))

/-- The local `percentPassed` of the handler, `100 - percentLeft`. -/
def percentPassed (percentLeft : Num) : Num :=
  Num.sub (Num.ofInt 100) percentLeft

/-- The six footer modes of the specification. -/
def footerModes : List String :=
  ["none", "days_left", "days_passed", "percent_left", "percent_passed",
   "days_left_percent_left"]

/-- The child of the footer element for a footer mode and a current date, or
`none` when no footer element is emitted. -/
def footerContent (footer : String) (now : Option Int) : Option Content :=
  if footer ≠ "none" then
    some (Content.text (footerText footer (daysLeft now) (getDayOfYear now)
      (percentLeft (daysLeft now) (getDaysInYear (getFullYear now)))
      (percentPassed (percentLeft (daysLeft now) (getDaysInYear (getFullYear now))))))
  else none

/-- The local `scale` of the handler, `sizeMap[calSize] || 1`, as an operand
of `*`. -/
def scaleOf (calSize : String) : Num :=
  operand (jsOr (jsGet sizeMap calSize) (Lookup.own (Num.fin 1 1)))

/-- The local `basePx` of the handler, `Math.round((w / 30) * scale)`. -/
def basePx (w scale : Num) : Num :=
  Num.round (Num.mul (Num.div w (Num.ofInt 30)) scale)

/-- The local `dotSize` of the handler,
`Math.max(8, Math.round(basePx * 0.55))`. -/
def dotSize (basePx : Num) : Num :=
  Num.max (Num.ofInt 8) (Num.round (Num.mul basePx (Num.fin 55 100)))

/-- The local `gap` of the handler, `Math.max(4, Math.round(dotSize * 0.35))`. -/
def gap (dotSize : Num) : Num :=
  Num.max (Num.ofInt 4) (Num.round (Num.mul dotSize (Num.fin 35 100)))

/-- The `dotSize` the handler computes for a model name and a calendar size. -/
def dotSizeFor (model calSize : String) : Num :=
  match resolveModel model with
  | Except.ok (w, _) => dotSize (basePx w (scaleOf calSize))
  | Except.error _ => Num.nan

/-- The environment the inner functions of the handler close over, for a
query, an instant and the resolved width and theme. -/
def envOf (q : Query) (nowMs : Int) (w : Num) (t : Theme) : Env :=
  { style := paramOr q.style "dots",
    weekendMode := paramOr q.weekend_mode "weekends_only",
    theme := t,
    year := getFullYear (nowOf q nowMs),
    month := getMonth (nowOf q nowMs),
    day := getDate (nowOf q nowMs),
    dotSize := dotSize (basePx w (scaleOf (paramOr q.calendar_size "standard"))) }

/-- The environment of a request on 5 November 2026 with the default theme and
the given style. -/
def envStyle (style : String) : Env := { envAllDots with style := style }

/-- The eight rendering styles of the specification. -/
def styles : List String :=
  ["dots", "dots_mini", "numbers", "numbers_bold", "squares", "squares_rounded", "lines",
   "bars"]

/-- The three weekend modes of the specification. -/
def weekendModes : List String := ["none", "weekends_only", "all"]

/-- The non-null cells whose state is `past` or `today`. -/
def elapsedCells (year month day : Option Int) : List (Int × Int) :=
  (dayCells year).filter fun c =>
    decide (getDayState month day c.1 c.2 = "past") ||
    decide (getDayState month day c.1 c.2 = "today")

/-- The non-null cells whose state is `future`. -/
def futureCells (year month day : Option Int) : List (Int × Int) :=
  (dayCells year).filter fun c => decide (getDayState month day c.1 c.2 = "future")

/-- The current date of the request `?timezone=-17765532` at
2026-11-05T00:00:00Z: 29 February of year 0. -/
def nowYearZero : Option Int := getDateInTimezone sampleNow (parseFloat "-17765532")

/-- The current date of the request `?timezone=2399495580` at
2026-11-05T00:00:00Z: 1 January of year 275760, the last year of the range of
time values. -/
def nowLastYear : Option Int := getDateInTimezone sampleNow (parseFloat "2399495580")
/-- The year that `new Date(year, m, d)` stands for: a year from 0 to 99 means
1900 + year. -/
def dateYear (y : Int) : Int := if 0 ≤ y ∧ y ≤ 99 then 1900 + y else y

/-- A year all of whose days lie within the range of time values. -/
def inRangeYear (y : Int) : Prop := -271820 ≤ y ∧ y ≤ 275759

instance (y : Int) : Decidable (inRangeYear y) := by
  unfold inRangeYear
  infer_instance

/-- The day cells of a leap or common year in order, each with its month: the
grid that the handler builds in a regular year. -/
def yearGrid (leap : Bool) : List (Int × Int) :=
  (List.range 12).flatMap fun (m : Nat) =>
    (List.range (monthLen leap (m : Int)).toNat).map fun (i : Nat) => ((m : Int), (i : Int) + 1)

instance (year : Int) : Decidable (gregorianLeap year) := by
  unfold gregorianLeap
  infer_instance

/-! # Properties -/

/-! ## Date arithmetic -/

theorem DayFromYear_succ (y : Int) :
    DayFromYear (y + 1) = DayFromYear y + (if InLeapYear y then 366 else 365) := by
  unfold DayFromYear InLeapYear
  by_cases h4 : y % 4 = 0 <;> by_cases h100 : y % 100 = 0 <;> by_cases h400 : y % 400 = 0 <;>
    simp [h4, h100, h400] <;> omega

theorem DayFromYear_est_lo (y : Int) : 146097 * (y - 1970) - 506 ≤ 400 * DayFromYear y := by
  unfold DayFromYear; omega

theorem DayFromYear_est_hi (y : Int) : 400 * DayFromYear y ≤ 146097 * (y - 1970) + 589 := by
  unfold DayFromYear; omega

/-- `YearFromDay` finds the year whose days include `day`. -/
theorem YearFromDay_of_mem (y day : Int) (h1 : DayFromYear y ≤ day)
    (h2 : day < DayFromYear (y + 1)) : YearFromDay day = y := by
  have a1 := DayFromYear_est_lo y
  have a2 := DayFromYear_est_hi (y + 1)
  have s0 := DayFromYear_succ y
  have s1 := DayFromYear_succ (y - 1)
  have s2 := DayFromYear_succ (y + 1)
  have hy0 : (400 * day) / 146097 + 1970 = y - 1 ∨ (400 * day) / 146097 + 1970 = y ∨
      (400 * day) / 146097 + 1970 = y + 1 := by
    omega
  unfold YearFromDay
  simp only []
  rcases hy0 with h | h | h <;> rw [h] <;> simp only [sub_add_cancel] at * <;> split_ifs <;>
    (try split_ifs at *) <;> omega

theorem monthLen_bounds (leap : Bool) (m : Int) :
    28 ≤ monthLen leap m ∧ monthLen leap m ≤ 31 := by
  unfold monthLen
  split_ifs <;> omega

theorem monthOfYearDay_table :
    ∀ leap : Bool, ∀ m : Nat, m < 12 → ∀ k : Nat, k < 31 →
      (k : Int) < monthLen leap (m : Int) →
        monthOfYearDay leap (monthStart leap (m : Int) + (k : Int)) = (m : Int) ∧
        0 ≤ monthStart leap (m : Int) ∧
        monthStart leap (m : Int) + (k : Int) < (if leap then 366 else 365) := by
  decide

theorem monthStart_next_table :
    ∀ leap : Bool, ∀ m : Nat, m < 12 →
      monthStart leap (m : Int) + monthLen leap (m : Int) =
        (if m = 11 then (if leap then 366 else 365) else monthStart leap ((m : Int) + 1)) := by
  decide

theorem monthOfYearDay_start (leap : Bool) (m d : Int) (hm0 : 0 ≤ m) (hm1 : m ≤ 11)
    (hd0 : 1 ≤ d) (hd1 : d ≤ monthLen leap m) :
    monthOfYearDay leap (monthStart leap m + d - 1) = m ∧
    0 ≤ monthStart leap m + d - 1 ∧
    monthStart leap m + d - 1 < (if leap then 366 else 365) := by
  have hb := monthLen_bounds leap m
  obtain ⟨mn, rfl⟩ := Int.eq_ofNat_of_zero_le hm0
  obtain ⟨k, hk⟩ := Int.eq_ofNat_of_zero_le (show 0 ≤ d - 1 by omega)
  have h := monthOfYearDay_table leap mn (by omega) k (by omega) (by omega)
  have e : monthStart leap (mn : Int) + d - 1 = monthStart leap (mn : Int) + (k : Int) := by
    omega
  rw [e]
  exact ⟨h.1, by omega, h.2.2⟩

theorem MonthFromDay_eq (day : Int) :
    MonthFromDay day
      = monthOfYearDay (InLeapYear (YearFromDay day)) (day - DayFromYear (YearFromDay day)) := by
  rfl

/-- The civil fields of the day `MakeDay y m d` of a valid date are `y`, `m`
and `d`. -/
theorem civil_of_MakeDay (y m d : Int) (hm0 : 0 ≤ m) (hm1 : m ≤ 11) (hd0 : 1 ≤ d)
    (hd1 : d ≤ monthLength y m) :
    YearFromDay (MakeDay y m d) = y ∧ MonthFromDay (MakeDay y m d) = m ∧
    DateFromDay (MakeDay y m d) = d := by
  have hdiv : m / 12 = 0 := by omega
  have hmod : m % 12 = m := by omega
  have hN : MakeDay y m d = DayFromYear y + (monthStart (InLeapYear y) m + d - 1) := by
    unfold MakeDay
    simp only [hdiv, hmod, add_zero]
    omega
  have hs := DayFromYear_succ y
  have hr := monthOfYearDay_start (InLeapYear y) m d hm0 hm1 hd0 hd1
  have hY : YearFromDay (MakeDay y m d) = y := by
    apply YearFromDay_of_mem
    · rw [hN]
      omega
    · rw [hN, hs]
      have := hr.2.2
      split_ifs at this ⊢ <;> omega
  have hM : MonthFromDay (MakeDay y m d) = m := by
    rw [MonthFromDay_eq, hY, hN, add_sub_cancel_left]
    exact hr.1
  refine ⟨hY, hM, ?_⟩
  unfold DateFromDay
  simp only [hY, hM]
  rw [hN]
  omega

/-- The day before the first of the next month is the last day of the month. -/
theorem MakeDay_next_zero (y m : Int) (hm0 : 0 ≤ m) (hm1 : m ≤ 11) :
    MakeDay y (m + 1) 0 = MakeDay y m (monthLength y m) := by
  obtain ⟨mn, rfl⟩ := Int.eq_ofNat_of_zero_le hm0
  have ht := monthStart_next_table (InLeapYear y) mn (by omega)
  have hdiv : (mn : Int) / 12 = 0 := by omega
  have hmod : (mn : Int) % 12 = mn := by omega
  unfold MakeDay monthLength
  simp only [hdiv, hmod, add_zero]
  by_cases h11 : mn = 11
  · subst h11
    have e1 : ((11 : Nat) : Int) + 1 = 12 := by norm_num
    rw [e1]
    have e2 : (12 : Int) / 12 = 1 := by norm_num
    have e3 : (12 : Int) % 12 = 0 := by norm_num
    rw [e2, e3]
    have hs := DayFromYear_succ y
    have h0 : monthStart (InLeapYear (y + 1)) 0 = 0 := by
      cases InLeapYear (y + 1) <;> rfl
    rw [h0, hs]
    simp only [if_true] at ht
    split_ifs at ht ⊢ <;> omega
  · rw [if_neg h11] at ht
    have hdiv2 : ((mn : Int) + 1) / 12 = 0 := by omega
    have hmod2 : ((mn : Int) + 1) % 12 = (mn : Int) + 1 := by omega
    rw [hdiv2, hmod2, add_zero]
    omega

/-- The days of a regular year are within the range of time values. -/
theorem DayFromYear_range (y : Int) (h0 : -271820 ≤ y) (h1 : y ≤ 275759) :
    -99999900 ≤ DayFromYear y ∧ DayFromYear (y + 1) ≤ 99999900 := by
  unfold DayFromYear
  omega

theorem Day_mul (n : Int) : Day (n * msPerDay) = n := by
  unfold Day msPerDay
  omega

/-- In a regular year `new Date(year, m, d)` of a valid date is the start of the
day `MakeDay year m d`. -/
theorem newDate_valid (y m d : Int) (hy : regularYear y) (hm0 : 0 ≤ m) (hm1 : m ≤ 11)
    (hd0 : 1 ≤ d) (hd1 : d ≤ monthLength y m) :
    newDate (some y) (some m) (some d) = some (MakeDay y m d * msPerDay) := by
  obtain ⟨hq, hlo, hhi⟩ := hy
  have hr := monthOfYearDay_start (InLeapYear y) m d hm0 hm1 hd0 hd1
  have hdiv : m / 12 = 0 := by omega
  have hmod : m % 12 = m := by omega
  have hN : MakeDay y m d = DayFromYear y + (monthStart (InLeapYear y) m + d - 1) := by
    unfold MakeDay
    simp only [hdiv, hmod, add_zero]
    omega
  have hs := DayFromYear_succ y
  have hb := DayFromYear_range y hlo hhi
  have hlt : DayFromYear y ≤ MakeDay y m d ∧ MakeDay y m d < DayFromYear (y + 1) := by
    rw [hN, hs]
    have := hr.2.2
    split_ifs at this ⊢ <;> omega
  unfold newDate
  have hnq : ¬ (0 ≤ y ∧ y ≤ 99) := by omega
  simp only [hnq, if_false]
  unfold TimeClip msPerDay
  rw [if_pos]
  constructor <;> omega

theorem getDate_last (y m : Int) (hy : regularYear y) (hm0 : 0 ≤ m) (hm1 : m ≤ 11) :
    getDate (newDate (some y) (some (m + 1)) (some 0)) = some (monthLength y m) := by
  have hb := monthLen_bounds (InLeapYear y) m
  have hv := newDate_valid y m (monthLength y m) hy hm0 hm1
    (by unfold monthLength; omega) (le_refl _)
  have hnq : ¬ (0 ≤ y ∧ y ≤ 99) := by
    obtain ⟨hq, _, _⟩ := hy
    omega
  have e : newDate (some y) (some (m + 1)) (some 0)
      = newDate (some y) (some m) (some (monthLength y m)) := by
    unfold newDate
    simp only [hnq, if_false]
    rw [MakeDay_next_zero y m hm0 hm1]
  rw [e, hv]
  unfold getDate
  simp only [Option.map_some', Day_mul]
  rw [(civil_of_MakeDay y m (monthLength y m) hm0 hm1
    (by unfold monthLength; omega) (le_refl _)).2.2]

theorem getDay_first (y m : Int) (hy : regularYear y) (hm0 : 0 ≤ m) (hm1 : m ≤ 11) :
    ∃ f : Int, 0 ≤ f ∧ f ≤ 6 ∧ getDay (newDate (some y) (some m) (some 1)) = some f := by
  have hb := monthLen_bounds (InLeapYear y) m
  have hv := newDate_valid y m 1 hy hm0 hm1 (le_refl _) (by unfold monthLength; omega)
  rw [hv]
  unfold getDay WeekDay
  simp only [Option.map_some']
  exact ⟨_, by omega, by omega, rfl⟩

/-! ## Calendar grid -/

/-- The grid entry of month `m` of a regular year: between 0 and 6 nulls, then
the days 1 to `monthLength` in order. -/
theorem monthCells_regular (y m : Int) (hy : regularYear y) (hm0 : 0 ≤ m) (hm1 : m ≤ 11) :
    ∃ k : Nat, k ≤ 6 ∧
      monthCells (some y) m =
        { month := m,
          cells := List.replicate k none ++
            (List.range (monthLength y m).toNat).map (fun (i : Nat) => some ((i : Int) + 1)),
          daysInMonth := some (monthLength y m),
          offset := some (k : Int) } := by
  obtain ⟨f, hf0, hf1, hf⟩ := getDay_first y m hy hm0 hm1
  have hl := getDate_last y m hy hm0 hm1
  refine ⟨((f + 6).tmod 7).toNat, ?_, ?_⟩
  · have : (f + 6).tmod 7 = (f + 6) % 7 := by
      rw [Int.tmod_eq_emod] <;> omega
    omega
  · unfold monthCells
    simp only [hf, hl, Option.map_some', loopCount]
    have h0 : 0 ≤ (f + 6).tmod 7 := by
      have : (f + 6).tmod 7 = (f + 6) % 7 := by
        rw [Int.tmod_eq_emod] <;> omega
      omega
    rw [Int.toNat_of_nonneg h0]

theorem filterMap_cells (m : Int) (k n : Nat) :
    (List.replicate k (none : Option Int) ++
        (List.range n).map (fun (i : Nat) => some ((i : Int) + 1))).filterMap
      (fun c => c.map fun d => (m, d))
    = (List.range n).map (fun (i : Nat) => (m, (i : Int) + 1)) := by
  rw [List.filterMap_append]
  have h1 : (List.replicate k (none : Option Int)).filterMap
      (fun c => c.map fun d => (m, d)) = [] := by
    induction k with
    | zero => rfl
    | succ k ih => simp [List.replicate_succ, ih]
  rw [h1, List.nil_append, List.filterMap_map]
  rw [← List.filterMap_eq_map]
  rfl

/-- The non-null cells of the grid of a regular year: for each month in order,
its days in order. -/
theorem dayCells_regular (y : Int) (hy : regularYear y) :
    dayCells (some y) =
      (List.range 12).flatMap fun (m : Nat) =>
        (List.range (monthLength y (m : Int)).toNat).map
          fun (i : Nat) => ((m : Int), (i : Int) + 1) := by
  unfold dayCells totalCells
  rw [List.flatMap_map]
  apply List.flatMap_congr
  intro m hm
  have hm' : m < 12 := List.mem_range.mp hm
  obtain ⟨k, _, hk⟩ := monthCells_regular y (m : Int) hy (by omega) (by omega)
  rw [hk]
  exact filterMap_cells (m : Int) k _

/-! ## The cell that is today -/

theorem getDayState_today_iff (month day m d : Int) :
    getDayState (some month) (some day) m d = "today" ↔ (m = month ∧ d = day) := by
  unfold getDayState jsLt jsGt jsEq
  simp only [decide_eq_true_eq]
  split_ifs <;> simp <;> omega

theorem filter_range_eq (n k : Nat) (hk : k < n) :
    (List.range n).filter (fun (i : Nat) => decide (i = k)) = [k] := by
  induction n with
  | zero => omega
  | succ n ih =>
    rw [List.range_succ, List.filter_append]
    by_cases h : k < n
    · rw [ih h]
      have : k ≠ n := by omega
      simp [Ne.symm this]
    · have hkn : k = n := by omega
      subst hkn
      have : (List.range k).filter (fun (i : Nat) => decide (i = k)) = [] := by
        rw [List.filter_eq_nil_iff]
        intro a ha
        have := List.mem_range.mp ha
        simp
        omega
      rw [this]
      simp

theorem flatMap_single (x : Int × Int) :
    ∀ M : Nat, M < 12 →
      (List.range 12).flatMap (fun (m : Nat) => if m = M then [x] else []) = [x] := by
  intro M hM
  interval_cases M <;> rfl

/-- In a regular year the grid has exactly one cell whose state is `today`, the
cell of the current month and day. -/
theorem todayCells_regular (y M D : Int) (hy : regularYear y) (hM0 : 0 ≤ M) (hM1 : M ≤ 11)
    (hD0 : 1 ≤ D) (hD1 : D ≤ monthLength y M) :
    todayCells (some y) (some M) (some D) = [(M, D)] := by
  unfold todayCells
  rw [dayCells_regular y hy, List.filter_flatMap]
  obtain ⟨Mn, rfl⟩ := Int.eq_ofNat_of_zero_le hM0
  have hMn : Mn < 12 := by omega
  rw [← flatMap_single ((Mn : Int), D) Mn hMn]
  apply List.flatMap_congr
  intro m hm
  rw [List.filter_map]
  have hp : ∀ i : Nat,
      ((fun c : Int × Int => decide (getDayState (some (Mn : Int)) (some D) c.1 c.2 = "today"))
        ∘ (fun (i : Nat) => ((m : Int), (i : Int) + 1))) i
      = decide ((m : Int) = Mn ∧ (i : Int) + 1 = D) := by
    intro i
    simp only [Function.comp]
    exact decide_eq_decide.mpr (getDayState_today_iff (Mn : Int) D (m : Int) ((i : Int) + 1))
  rw [List.filter_congr (fun i _ => hp i)]
  by_cases hmM : m = Mn
  · subst hmM
    rw [if_pos rfl]
    obtain ⟨k, hk⟩ := Int.eq_ofNat_of_zero_le (show 0 ≤ D - 1 by omega)
    have hf : (List.range (monthLength y (m : Int)).toNat).filter
        (fun (i : Nat) => decide ((m : Int) = (m : Int) ∧ (i : Int) + 1 = D))
        = (List.range (monthLength y (m : Int)).toNat).filter
            (fun (i : Nat) => decide (i = k)) := by
      apply List.filter_congr
      intro i _
      simp only [true_and, decide_eq_decide]
      omega
    rw [hf, filter_range_eq _ k (by omega)]
    simp only [List.map_cons, List.map_nil]
    congr 2
    omega
  · rw [if_neg hmM]
    have : (List.range (monthLength y (m : Int)).toNat).filter
        (fun (i : Nat) => decide ((m : Int) = (Mn : Int) ∧ (i : Int) + 1 = D)) = [] := by
      rw [List.filter_eq_nil_iff]
      intro a _
      simp only [decide_eq_true_eq, not_and]
      intro h
      omega
    rw [this]
    rfl

/-- On 5 November 2026 the one cell with state `today` is `(10, 5)`. -/
theorem todayCells_regular_witness :
    regularYear 2026 ∧ (5 : Int) ≤ monthLength 2026 10 ∧
    todayCells (some 2026) (some 10) (some 5) = [(10, 5)] :=
  ⟨by decide, by decide,
   todayCells_regular 2026 10 5 (by decide) (by decide) (by decide) (by decide) (by decide)⟩

/-- C1 at 29 February of year 0, a leap year of 366 days: the request
`?timezone=-17765532` at 2026-11-05T00:00Z computes this date, the grid is
built from `new Date(0, m, d)`, which stands for the year 1900, so its
February has 28 cells and no cell of the grid has state `today`. -/
theorem no_today_cell_in_year_zero :
    getFullYear (getDateInTimezone sampleNow (parseFloat "-17765532")) = some 0 ∧
    getMonth (getDateInTimezone sampleNow (parseFloat "-17765532")) = some 1 ∧
    getDate (getDateInTimezone sampleNow (parseFloat "-17765532")) = some 29 ∧
    getDaysInYear (some 0) = 366 ∧
    (monthCells (some 0) 1).daysInMonth = some 28 ∧
    (dayCells (some 0)).length = 365 ∧
    todayCells (some 0) (some 1) (some 29) = [] := by
  decide

/-! ## Day state -/

/-- C2: for integer current `month`, `day` and every cell `(m, d)`, the state is
`past` exactly when `m < month` or `m = month` and `d < day`, `today` exactly
when `m = month` and `d = day`, and `future` exactly in the remaining case;
the state is always one of the three, and the three strings differ. -/
theorem getDayState_spec (month day m d : Int) :
    (getDayState (some month) (some day) m d = "past"
        ↔ (m < month ∨ (m = month ∧ d < day))) ∧
    (getDayState (some month) (some day) m d = "today" ↔ (m = month ∧ d = day)) ∧
    (getDayState (some month) (some day) m d = "future"
        ↔ (¬ (m < month ∨ (m = month ∧ d < day)) ∧ ¬ (m = month ∧ d = day))) ∧
    (getDayState (some month) (some day) m d = "past" ∨
      getDayState (some month) (some day) m d = "today" ∨
      getDayState (some month) (some day) m d = "future") ∧
    ("past" ≠ "today" ∧ "past" ≠ "future" ∧ "today" ≠ "future") := by
  unfold getDayState jsLt jsGt jsEq
  simp only [decide_eq_true_eq]
  split_ifs <;> simp <;> omega

/-! ## Days in a year -/

/-- C3: for every integer year `getDaysInYear` returns 366 exactly when the
year is a Gregorian leap year, and 365 otherwise. -/
theorem getDaysInYear_spec (year : Int) :
    (getDaysInYear (some year) = 366 ↔ gregorianLeap year) ∧
    (¬ gregorianLeap year → getDaysInYear (some year) = 365) := by
  unfold getDaysInYear gregorianLeap
  simp only [ne_eq, ← Int.dvd_iff_tmod_eq_zero]
  split_ifs with h
  · refine ⟨⟨fun _ => ?_, fun _ => rfl⟩, fun hn => ?_⟩ <;> omega
  · refine ⟨⟨fun hc => ?_, fun hl => ?_⟩, fun _ => rfl⟩ <;> omega

/-! ## Colours -/

theorem isWeekend_iff (year : Option Int) (m d : Int) :
    isWeekend year m d = true ↔ isSatOrSun year m d := by
  unfold isWeekend isSatOrSun
  simp only [Bool.or_eq_true, decide_eq_true_eq]
  tauto

/-- C5: for every weekend mode, theme and cell, `getColor` is the colour table
of the specification: `today` gives the today-colour; `past` gives the
today-colour followed by `66` when the cell is a Saturday or Sunday and the
mode is not `none`, else the past-colour; `future` gives the future-colour
followed by `aa` when the cell is a Saturday or Sunday and the mode is `all`,
else the future-colour. -/
theorem getColor_table (weekendMode : String) (t : Theme) (year : Option Int) (m d : Int) :
    getColor weekendMode t year "today" m d = t.todayCol ∧
    getColor weekendMode t year "past" m d =
      (if isSatOrSun year m d ∧ weekendMode ≠ "none" then t.todayCol ++ "66" else t.pastCol) ∧
    getColor weekendMode t year "future" m d =
      (if isSatOrSun year m d ∧ weekendMode = "all" then t.futureCol ++ "aa"
       else t.futureCol) := by
  have hw := isWeekend_iff year m d
  refine ⟨?_, ?_, ?_⟩
  · simp [getColor]
  · simp only [getColor, hw]
    simp [and_comm]
  · simp only [getColor, hw]
    simp [and_comm]

/-! ## Cell shapes -/

theorem append_aa_ne (s : String) : s ++ "aa" ≠ s := by
  intro h
  have hl := congrArg String.length h
  simp only [String.length_append] at hl
  have h2 : "aa".length = 2 := by decide
  omega

/-- C6 at the default style: with `weekend_mode=all` and the style `dots`,
on 5 November 2026 the future Saturday 7 November and the future Friday
6 November get the same shape, which does not carry the colour `#2a2a2aaa`
that `getColor` computes for the Saturday. -/
theorem dots_future_saturday_not_distinct :
    isWeekend envAllDots.year 10 7 = true ∧ isWeekend envAllDots.year 10 6 = false ∧
    getDayState envAllDots.month envAllDots.day 10 7 = "future" ∧
    getDayState envAllDots.month envAllDots.day 10 6 = "future" ∧
    getColor envAllDots.weekendMode envAllDots.theme envAllDots.year "future" 10 7
      = "#2a2a2aaa" ∧
    renderCell envAllDots 10 7 "future" = renderCell envAllDots 10 6 "future" ∧
    (renderCell envAllDots 10 7 "future").style =
      [("width", CssVal.px (Num.fin 21 1)), ("height", CssVal.px (Num.fin 21 1)),
       ("borderRadius", CssVal.str "50%"), ("background", CssVal.str "transparent"),
       ("border", CssVal.border1 "#2a2a2a"), ("transform", CssVal.str "none")] := by
  decide

/-- With `weekend_mode=all`, for a future Saturday or Sunday
cell `(m, d)` and a future weekday cell `(m', d')`: in the styles `numbers`
and `numbers_bold` the first shape has text colour future-colour followed by
`aa`, the second the plain future-colour, and the shapes differ; in every
other style the two shapes are equal. -/
theorem renderCell_future_weekend (e : Env) (m d m' d' : Int)
    (hmode : e.weekendMode = "all")
    (hsat : isWeekend e.year m d = true) (hwk : isWeekend e.year m' d' = false) :
    ((e.style = "numbers" ∨ e.style = "numbers_bold") →
      (renderCell e m d "future").style.get "color"
        = some (CssVal.str (e.theme.futureCol ++ "aa")) ∧
      (renderCell e m' d' "future").style.get "color" = some (CssVal.str e.theme.futureCol) ∧
      renderCell e m d "future" ≠ renderCell e m' d' "future") ∧
    (e.style ≠ "numbers" → e.style ≠ "numbers_bold" →
      renderCell e m d "future" = renderCell e m' d' "future") := by
  have hc1 : getColor e.weekendMode e.theme e.year "future" m d = e.theme.futureCol ++ "aa" := by
    simp [getColor, hmode, hsat]
  have hc2 : getColor e.weekendMode e.theme e.year "future" m' d' = e.theme.futureCol := by
    simp [getColor, hwk]
  have hne := append_aa_ne e.theme.futureCol
  constructor
  · intro hs
    have g1 : (renderCell e m d "future").style.get "color"
        = some (CssVal.str (e.theme.futureCol ++ "aa")) := by
      unfold renderCell
      rw [hc1]
      simp [hs, Style.get, List.lookup]
    have g2 : (renderCell e m' d' "future").style.get "color"
        = some (CssVal.str e.theme.futureCol) := by
      unfold renderCell
      rw [hc2]
      simp [hs, Style.get, List.lookup]
    refine ⟨g1, g2, ?_⟩
    intro heq
    rw [heq, g2] at g1
    injection g1 with g1
    injection g1 with g1
    exact hne g1.symm
  · intro h1 h2
    unfold renderCell
    simp [h1, h2]

/-- An instance of `renderCell_future_weekend` at Saturday 7 and Friday
6 November 2026 in the style `numbers`. -/
theorem renderCell_future_weekend_witness :
    envAllNumbers.weekendMode = "all" ∧ isWeekend envAllNumbers.year 10 7 = true ∧
    isWeekend envAllNumbers.year 10 6 = false ∧
    (renderCell envAllNumbers 10 7 "future").style.get "color"
      = some (CssVal.str "#2a2a2aaa") :=
  ⟨by decide, by decide, by decide,
   ((renderCell_future_weekend envAllNumbers 10 7 10 6 (by decide) (by decide) (by decide)).1
     (Or.inl (by decide))).1⟩

/-! ## Lookups and the root element -/

theorem jsGet_of_unknown {α : Type} (table : List (String × α)) (key : String)
    (h1 : table.lookup key = none) (h2 : key ∉ objectPrototypeKeys) :
    jsGet table key = Lookup.missing := by
  unfold jsGet
  rw [h1]
  simp [h2]

theorem jsGet_of_inherited {α : Type} (table : List (String × α)) (key : String)
    (h1 : table.lookup key = none) (h2 : key ∈ objectPrototypeKeys) :
    jsGet table key = Lookup.inherited key := by
  unfold jsGet
  rw [h1]
  simp [h2]

/-- The device lookup never throws. -/
theorem resolveModel_ok (model : String) : ∃ w h, resolveModel model = Except.ok (w, h) := by
  unfold resolveModel
  have hd : jsGet MODELS "iphone_15_pro" = Lookup.own ⟨1179, 2556⟩ := by decide
  rw [hd]
  cases hg : jsGet MODELS model with
  | own v => exact ⟨_, _, rfl⟩
  | inherited k => exact ⟨_, _, rfl⟩
  | missing => exact ⟨_, _, rfl⟩

/-- The root style and the size passed to the rasterizer come from the
resolved device profile. -/
theorem handler_rootStyle (q : Query) (nowMs : Int) (w h : Num) (t : Theme)
    (hm : resolveModel (paramOr q.model "iphone_15_pro") = Except.ok (w, h))
    (ht : resolveTheme (paramOr q.theme "graphite_orange") = Except.ok t) :
    (handler q nowMs).map (fun r => (r.image.style, r.width, r.height))
      = Except.ok (rootStyle w h (parseInt (paramOr q.opacity "0")) t.bg, w, h) := by
  unfold handler
  simp only [bind, Except.bind, hm, ht]
  rfl

/-! ## Background -/

/-- The root background is the one of `bgStyle`. -/
theorem handler_background_eq (q : Query) (nowMs : Int) (t : Theme)
    (ht : resolveTheme (paramOr q.theme "graphite_orange") = Except.ok t) :
    (handler q nowMs).map (fun r => r.image.style.get "background")
      = Except.ok ((bgStyle (parseInt (paramOr q.opacity "0")) t.bg).get "background") := by
  obtain ⟨w, h, hm⟩ := resolveModel_ok (paramOr q.model "iphone_15_pro")
  unfold handler
  simp only [bind, Except.bind, hm, ht]
  show Except.ok (Style.get (rootStyle w h _ t.bg) "background") = _
  congr 1
  unfold rootStyle Style.get
  unfold bgStyle
  simp only []
  split_ifs <;> rfl

/-- C7: for an integer opacity with `0 < opacity ≤ 100` there is one alpha,
of value `1 - opacity / 100` and so in `[0, 1)`, such that every request that
parses to this opacity gets the root background `rgba(0,0,0,alpha)`, whatever
theme it resolves; a request that parses to opacity 0 gets the background
colour of its theme. -/
theorem handler_background (opacity : Int) :
    (0 < opacity → opacity ≤ 100 →
      ∃ a : Num,
        a.toRat = some (1 - (opacity : ℚ) / 100) ∧
        (0 : ℚ) ≤ 1 - (opacity : ℚ) / 100 ∧ 1 - (opacity : ℚ) / 100 < 1 ∧
        ∀ (q : Query) (nowMs : Int) (t : Theme),
          resolveTheme (paramOr q.theme "graphite_orange") = Except.ok t →
          parseInt (paramOr q.opacity "0") = some opacity →
          (handler q nowMs).map (fun r => r.image.style.get "background")
            = Except.ok (some (CssVal.rgbaBlack a))) ∧
    (∀ (q : Query) (nowMs : Int) (t : Theme),
      resolveTheme (paramOr q.theme "graphite_orange") = Except.ok t →
      parseInt (paramOr q.opacity "0") = some 0 →
      (handler q nowMs).map (fun r => r.image.style.get "background")
        = Except.ok (some (CssVal.str t.bg))) := by
  constructor
  · intro hpos hle
    refine ⟨Num.fin (1 * (1 * 100) + -(opacity * 1) * 1) (1 * (1 * 100)), ?_, ?_, ?_, ?_⟩
    · simp only [Num.toRat]
      congr 1
      push_cast
      ring
    · have : (opacity : ℚ) ≤ 100 := by exact_mod_cast hle
      linarith
    · have : (0 : ℚ) < opacity := by exact_mod_cast hpos
      linarith
    · intro q nowMs t ht hop
      rw [handler_background_eq q nowMs t ht, hop]
      simp [bgStyle, Style.get, Num.div, Num.ofOpt, Num.ofInt, Num.gtZero,
        Num.sub, Num.add, Num.neg, hpos, List.lookup]
  · intro q nowMs t ht hop
    rw [handler_background_eq q nowMs t ht, hop]
    simp [bgStyle, Style.get, Num.div, Num.ofOpt, Num.ofInt, Num.gtZero, List.lookup]

/-- An instance of `handler_background`: `?opacity=50&theme=pure_white` gives the
black overlay of alpha 50/100. -/
theorem handler_background_witness :
    (0 : Int) < 50 ∧ (50 : Int) ≤ 100 ∧
    (handler { Query.empty with opacity := some "50", theme := some "pure_white" }
        sampleNow).map (fun r => r.image.style.get "background")
      = Except.ok (some (CssVal.rgbaBlack (Num.fin 50 100))) ∧
    ∃ a : Num,
      a.toRat = some (1 - ((50 : Int) : ℚ) / 100) ∧
      (0 : ℚ) ≤ 1 - ((50 : Int) : ℚ) / 100 ∧ 1 - ((50 : Int) : ℚ) / 100 < 1 ∧
      ∀ (q : Query) (nowMs : Int) (t : Theme),
        resolveTheme (paramOr q.theme "graphite_orange") = Except.ok t →
        parseInt (paramOr q.opacity "0") = some 50 →
        (handler q nowMs).map (fun r => r.image.style.get "background")
          = Except.ok (some (CssVal.rgbaBlack a)) :=
  ⟨by decide, by decide, rfl, (handler_background 50).1 (by decide) (by decide)⟩

/-! ## Failure of the handler -/

theorem THEMES_lookup_inherited (k : String) (hk : k ∈ objectPrototypeKeys) :
    THEMES.lookup k = none := by
  simp only [objectPrototypeKeys, List.mem_cons, List.mem_singleton, List.not_mem_nil,
    or_false] at hk
  rcases hk with h | h | h | h | h | h | h | h | h | h | h | h <;> subst h <;> decide

/-- The theme resolution throws exactly for the names inherited from
`Object.prototype`. -/
theorem resolveTheme_error_iff (theme : String) :
    (∃ msg, resolveTheme theme = Except.error msg) ↔ theme ∈ objectPrototypeKeys := by
  constructor
  · rintro ⟨msg, h⟩
    by_contra hk
    unfold resolveTheme jsGet at h
    have hd : THEMES.lookup "graphite_orange"
        = some ⟨"#111111", "#ff8c4299", "#ff8c42", "#2a2a2a", "#ffffff"⟩ := by decide
    cases hl : THEMES.lookup theme with
    | none =>
      rw [hl, hd] at h
      simp [hk, jsOr, destructTheme] at h
    | some v =>
      rw [hl] at h
      simp [jsOr, destructTheme] at h
  · intro hk
    refine ⟨"TypeError: value is not iterable", ?_⟩
    unfold resolveTheme
    rw [jsGet_of_inherited THEMES theme (THEMES_lookup_inherited theme hk) hk]
    rfl

/-- C4 at `?theme=constructor`: `THEMES['constructor']` is the inherited
function `Object`, which is truthy and not iterable, so the destructuring
throws and the handler fails at every instant. -/
theorem handler_throws_on_inherited_theme (nowMs : Int) :
    handler { Query.empty with theme := some "constructor" } nowMs
      = Except.error "TypeError: value is not iterable" := by
  rfl

/-- The handler throws exactly when the theme parameter is a name inherited from
`Object.prototype`; for every other query it returns a response. -/
theorem handler_error_iff (q : Query) (nowMs : Int) :
    (∃ msg, handler q nowMs = Except.error msg)
      ↔ paramOr q.theme "graphite_orange" ∈ objectPrototypeKeys := by
  rw [← resolveTheme_error_iff]
  obtain ⟨w, h, hm⟩ := resolveModel_ok (paramOr q.model "iphone_15_pro")
  cases ht : resolveTheme (paramOr q.theme "graphite_orange") with
  | error msg =>
    have : handler q nowMs = Except.error msg := by
      unfold handler
      simp only [bind, Except.bind, hm, ht]
    simp [this]
  | ok t =>
    have : ∃ r, handler q nowMs = Except.ok r := by
      unfold handler
      simp only [bind, Except.bind, hm, ht]
      exact ⟨_, rfl⟩
    obtain ⟨r, hr⟩ := this
    simp [hr]

/-! ## Device profile -/

/-- C8 at `?model=constructor`: `constructor` is not a key of `MODELS`, yet the
lookup finds the inherited function `Object`, so `w` and `h` are `undefined`
instead of 1179 and 2556; these are the values set on the root element and
passed to the rasterizer. -/
theorem model_constructor_undefined (nowMs : Int) :
    MODELS.lookup "constructor" = none ∧
    resolveModel "constructor" = Except.ok (Num.undefined, Num.undefined) ∧
    (handler { Query.empty with model := some "constructor" } nowMs).map
        (fun r => (r.width, r.height, r.image.style.get "width", r.image.style.get "height"))
      = Except.ok (Num.undefined, Num.undefined, some (CssVal.px Num.undefined),
          some (CssVal.px Num.undefined)) := by
  refine ⟨by decide, by decide, ?_⟩
  rfl

/-- A model name that is neither a key of `MODELS` nor a name inherited from
`Object.prototype` resolves to the profile of `iphone_15_pro`. -/
theorem resolveModel_of_unknown (model : String)
    (h1 : MODELS.lookup model = none) (h2 : model ∉ objectPrototypeKeys) :
    resolveModel model = Except.ok (Num.fin 1179 1, Num.fin 2556 1) := by
  unfold resolveModel
  rw [jsGet_of_unknown MODELS model h1 h2]
  rfl

/-- The name `bogus` resolves to 1179 by 2556. -/
theorem resolveModel_of_unknown_witness :
    MODELS.lookup "bogus" = none ∧ "bogus" ∉ objectPrototypeKeys ∧
    resolveModel "bogus" = Except.ok (Num.fin 1179 1, Num.fin 2556 1) :=
  ⟨by decide, by decide, resolveModel_of_unknown "bogus" (by decide) (by decide)⟩

/-! ## Theme -/

/-- C9 at the names inherited from `Object.prototype`, such as
`?theme=constructor`: none of them is a key of `THEMES`, and for each the theme
resolution throws instead of giving the colours of `graphite_orange`. -/
theorem theme_inherited_key_throws :
    "constructor" ∈ objectPrototypeKeys ∧
    objectPrototypeKeys.all (fun k =>
      decide (THEMES.lookup k = none) &&
      decide (resolveTheme k = Except.error "TypeError: value is not iterable")) = true := by
  decide

/-- A theme name that is neither a key of `THEMES` nor a name inherited from
`Object.prototype` resolves to the colours of `graphite_orange`. -/
theorem resolveTheme_of_unknown (theme : String)
    (h1 : THEMES.lookup theme = none) (h2 : theme ∉ objectPrototypeKeys) :
    resolveTheme theme
      = Except.ok ⟨"#111111", "#ff8c4299", "#ff8c42", "#2a2a2a", "#ffffff"⟩ := by
  unfold resolveTheme
  rw [jsGet_of_unknown THEMES theme h1 h2]
  rfl

/-- The name `bogus` resolves to the colours of `graphite_orange`. -/
theorem resolveTheme_of_unknown_witness :
    THEMES.lookup "bogus" = none ∧ "bogus" ∉ objectPrototypeKeys ∧
    resolveTheme "bogus"
      = Except.ok ⟨"#111111", "#ff8c4299", "#ff8c42", "#2a2a2a", "#ffffff"⟩ :=
  ⟨by decide, by decide, resolveTheme_of_unknown "bogus" (by decide) (by decide)⟩

/-! ## Unparsable numbers -/

theorem bgStyle_nan (bg : String) : bgStyle none bg = bgStyle (some 0) bg := by
  rfl

/-- C10 at `?timezone=abc`: `parseFloat` gives `NaN`, the date is invalid at
every instant, and the year drawn is `NaN`, where the request without a
timezone draws 2026. -/
theorem timezone_nan_not_default :
    parseFloat "abc" = Num.nan ∧
    (∀ nowMs : Int, getDateInTimezone nowMs (parseFloat "abc") = none) ∧
    (handler { Query.empty with timezone := some "abc" } sampleNow).map
        (fun r => (r.image.yearLabel.content, r.image.months.map (fun b => b.rows.length)))
      = Except.ok (Content.num Num.nan, [0, 0, 0, 0, 0, 0, 0, 0, 0, 0, 0, 0]) ∧
    (handler Query.empty sampleNow).map
        (fun r => (r.image.yearLabel.content, r.image.months.map (fun b => b.rows.length)))
      = Except.ok (Content.num (Num.fin 2026 1), [5, 5, 6, 5, 5, 5, 5, 6, 5, 5, 6, 5]) := by
  refine ⟨by decide, fun nowMs => rfl, ?_, ?_⟩
  · rfl
  · rfl

/-- An opacity parameter that does not parse to a number gives the same
response as an absent one. -/
theorem handler_opacity_nan (q : Query) (nowMs : Int) (s : String) (hs : parseInt s = none) :
    handler { q with opacity := some s } nowMs = handler { q with opacity := none } nowMs := by
  have key : ∀ (w h : Num) (bg : String),
      rootStyle w h (parseInt (paramOr (some s) "0")) bg
        = rootStyle w h (parseInt (paramOr none "0")) bg := by
    intro w h bg
    have h0 : parseInt (paramOr none "0") = some 0 := by decide
    rw [h0]
    unfold paramOr
    simp only []
    split_ifs
    · rw [show parseInt "0" = some 0 by decide]
    · rw [hs]
      rfl
  unfold handler
  simp only [key]

/-- The request `?opacity=abc` gets the response of the request without
opacity. -/
theorem handler_opacity_nan_witness :
    parseInt "abc" = none ∧
    handler { Query.empty with opacity := some "abc" } sampleNow
      = handler { Query.empty with opacity := none } sampleNow :=
  ⟨by decide, handler_opacity_nan Query.empty sampleNow "abc" (by decide)⟩

/-! ## Footer -/

/-- The handler either throws, exactly when the theme resolution throws, or
returns a response built from the resolved profile and theme. -/
theorem handler_cases (q : Query) (nowMs : Int) :
    (∃ msg, resolveTheme (paramOr q.theme "graphite_orange") = Except.error msg ∧
      handler q nowMs = Except.error msg) ∨
    (∃ w h t r, resolveModel (paramOr q.model "iphone_15_pro") = Except.ok (w, h) ∧
      resolveTheme (paramOr q.theme "graphite_orange") = Except.ok t ∧
      handler q nowMs = Except.ok r) := by
  obtain ⟨w, h, hm⟩ := resolveModel_ok (paramOr q.model "iphone_15_pro")
  cases ht : resolveTheme (paramOr q.theme "graphite_orange") with
  | error msg =>
    left
    refine ⟨msg, rfl, ?_⟩
    unfold handler
    simp only [bind, Except.bind, hm, ht]
  | ok t =>
    right
    have hr : ∃ r, handler q nowMs = Except.ok r := by
      unfold handler
      simp only [bind, Except.bind, hm, ht]
      exact ⟨_, rfl⟩
    obtain ⟨r, hr⟩ := hr
    exact ⟨w, h, t, r, hm, rfl, hr⟩

/-- The footer of the response is `footerContent` of the footer parameter and
the current date. -/
theorem handler_footer (q : Query) (nowMs : Int) :
    (handler q nowMs).map (fun r => r.image.footer.map (fun f => f.content))
      = (handler q nowMs).map
          (fun _ => footerContent (paramOr q.footer "days_left_percent_left") (nowOf q nowMs)) := by
  obtain ⟨w, h, hm⟩ := resolveModel_ok (paramOr q.model "iphone_15_pro")
  cases ht : resolveTheme (paramOr q.theme "graphite_orange") with
  | error msg =>
    have : handler q nowMs = Except.error msg := by
      unfold handler
      simp only [bind, Except.bind, hm, ht]
    rw [this]
    rfl
  | ok t =>
    unfold handler
    simp only [bind, Except.bind, hm, ht]
    show Except.ok _ = Except.ok _
    congr 1
    unfold footerContent
    split_ifs <;> rfl

/-- A footer parameter outside the six modes gives the empty footer text. -/
theorem footerText_of_unknown (footer : String) (hf : footer ∉ footerModes)
    (dl doy : Option Int) (pl pp : Num) : footerText footer dl doy pl pp = "" := by
  simp only [footerModes, List.mem_cons, List.mem_singleton, List.not_mem_nil, or_false,
    not_or] at hf
  obtain ⟨_, h1, h2, h3, h4, h5⟩ := hf
  unfold footerText
  simp [h1, h2, h3, h4, h5]

/-- C11 at `?footer=bogus`: `bogus` is not a footer mode, the footer element is
emitted with the empty text, where the default mode `days_left_percent_left`
shows the days and the percentage left. -/
theorem footer_bogus_is_empty :
    "bogus" ∉ footerModes ∧
    (handler { Query.empty with footer := some "bogus" } sampleNow).map
        (fun r => r.image.footer.map (fun f => f.content))
      = Except.ok (some (Content.text "")) ∧
    (handler { Query.empty with footer := some "days_left_percent_left" } sampleNow).map
        (fun r => r.image.footer.map (fun f => f.content))
      = Except.ok (some (Content.text "56 днів · 15% залишилось")) := by
  refine ⟨by decide, ?_, ?_⟩
  · rfl
  · rfl

/-- C15: the footer of the response is a function of the footer parameter and
the current date alone, so it is the same for any two values of `lang`; for
the five modes other than `none` the text is the fixed template filled with
`daysLeft`, `dayOfYear`, `percentLeft` or `percentPassed`; for `none` no footer
element is emitted. -/
theorem footer_independent_of_lang :
    (∀ (q : Query) (nowMs : Int) (l1 l2 : Option String),
      (handler { q with lang := l1 } nowMs).map (fun r => r.image.footer)
        = (handler { q with lang := l2 } nowMs).map (fun r => r.image.footer)) ∧
    (∀ (q : Query) (nowMs : Int),
      (handler q nowMs).map (fun r => r.image.footer.map (fun f => f.content))
        = (handler q nowMs).map
            (fun _ => footerContent (paramOr q.footer "days_left_percent_left")
              (nowOf q nowMs))) ∧
    (∀ (now : Option Int), footerContent "none" now = none) ∧
    (∀ (dl doy : Option Int) (pl pp : Num),
      footerText "days_left" dl doy pl pp = (Num.ofOpt dl).fmt ++ " днів залишилось" ∧
      footerText "days_passed" dl doy pl pp = (Num.ofOpt doy).fmt ++ " днів пройдено" ∧
      footerText "percent_left" dl doy pl pp = pl.fmt ++ "% залишилось" ∧
      footerText "percent_passed" dl doy pl pp = pp.fmt ++ "% пройдено" ∧
      footerText "days_left_percent_left" dl doy pl pp
        = (Num.ofOpt dl).fmt ++ " днів · " ++ pl.fmt ++ "% залишилось") := by
  refine ⟨?_, handler_footer, fun _ => rfl, ?_⟩
  · intro q nowMs l1 l2
    obtain ⟨w, h, hm⟩ := resolveModel_ok (paramOr q.model "iphone_15_pro")
    cases ht : resolveTheme (paramOr q.theme "graphite_orange") with
    | error msg =>
      have e : ∀ l, handler { q with lang := l } nowMs = Except.error msg := by
        intro l
        unfold handler
        simp only [bind, Except.bind, hm, ht]
      rw [e l1, e l2]
    | ok t =>
      unfold handler
      simp only [bind, Except.bind, hm, ht]
      rfl
  · intro dl doy pl pp
    refine ⟨?_, ?_, ?_, ?_, ?_⟩ <;> simp [footerText]

/-! ## Percentages -/

/-- The value of `percentLeft` for an integer `daysLeft` and a positive
`daysInYear`. -/
theorem percentLeft_eq (dl diy : Int) (hd : 0 < diy) :
    percentLeft (some dl) diy = Num.fin ((2 * (dl * 1 * 100) + 1 * diy * 1) / (2 * (1 * diy * 1))) 1 := by
  have hne : diy ≠ 0 := by omega
  simp [percentLeft, Num.div, Num.mul, Num.round, Num.ofOpt, Num.ofInt, hne, hd]

/-- C19: for `daysInYear` 365 or 366 and `0 ≤ daysLeft ≤ daysInYear`,
`percentLeft` is the integer `⌊x + 1/2⌋` for the exact rational
`x = 100 * daysLeft / daysInYear`, which is also `round x`; `x` is never an
integer plus one half, and `percentLeft` is strictly nearer to `x` than every
other integer. -/
theorem percentLeft_exact (dl diy : Int) (hy : diy = 365 ∨ diy = 366) (h0 : 0 ≤ dl)
    (h1 : dl ≤ diy) :
    ∃ k : Int, percentLeft (some dl) diy = Num.fin k 1 ∧
      k = ⌊(100 * (dl : ℚ)) / (diy : ℚ) + 1 / 2⌋ ∧
      k = round ((100 * (dl : ℚ)) / (diy : ℚ)) ∧
      (∀ j : Int, (100 * (dl : ℚ)) / (diy : ℚ) ≠ (j : ℚ) + 1 / 2) ∧
      (∀ j : Int, j ≠ k →
        |(100 * (dl : ℚ)) / (diy : ℚ) - (k : ℚ)| < |(100 * (dl : ℚ)) / (diy : ℚ) - (j : ℚ)|) := by
  have hd : 0 < diy := by omega
  have hdq : (0 : ℚ) < (diy : ℚ) := by exact_mod_cast hd
  set x : ℚ := (100 * (dl : ℚ)) / (diy : ℚ) with hx
  have hxd : x * (diy : ℚ) = 100 * (dl : ℚ) := by
    rw [hx]
    field_simp
  -- no half-way value
  have hhalf : ∀ j : Int, x ≠ (j : ℚ) + 1 / 2 := by
    intro j hj
    have e : (200 * dl : ℚ) = ((2 * j + 1) * diy : ℚ) := by
      have : x * (diy : ℚ) = ((j : ℚ) + 1 / 2) * (diy : ℚ) := by rw [hj]
      rw [hxd] at this
      linarith
    have e' : 200 * dl = (2 * j + 1) * diy := by exact_mod_cast e
    rcases hy with h | h <;> subst h <;> omega
  refine ⟨(2 * (dl * 1 * 100) + 1 * diy * 1) / (2 * (1 * diy * 1)), percentLeft_eq dl diy hd, ?_⟩
  set k : Int := (2 * (dl * 1 * 100) + 1 * diy * 1) / (2 * (1 * diy * 1)) with hk
  have hk1 : 2 * diy * k ≤ 200 * dl + diy := by
    rcases hy with h | h <;> subst h <;> omega
  have hk2 : 200 * dl + diy < 2 * diy * k + 2 * diy := by
    rcases hy with h | h <;> subst h <;> omega
  have hk1q : (2 * diy * k : ℚ) ≤ 200 * dl + diy := by exact_mod_cast hk1
  have hk2q : (200 * dl + diy : ℚ) < 2 * diy * k + 2 * diy := by exact_mod_cast hk2
  have hlo : (k : ℚ) ≤ x + 1 / 2 := by
    have : (k : ℚ) * diy ≤ (x + 1 / 2) * diy := by
      rw [add_mul, hxd]
      linarith
    exact le_of_mul_le_mul_right this hdq
  have hhi : x + 1 / 2 < (k : ℚ) + 1 := by
    have : (x + 1 / 2) * diy < ((k : ℚ) + 1) * diy := by
      rw [add_mul, hxd]
      linarith
    exact lt_of_mul_lt_mul_right this (le_of_lt hdq)
  have hfloor : k = ⌊x + 1 / 2⌋ := by
    symm
    rw [Int.floor_eq_iff]
    exact ⟨hlo, hhi⟩
  refine ⟨hfloor, ?_, hhalf, ?_⟩
  · rw [round_eq]
    exact hfloor
  · intro j hj
    have hne : x ≠ (k : ℚ) - 1 / 2 := by
      intro h
      apply hhalf (k - 1)
      rw [h]
      push_cast
      ring
    have hlo' : (k : ℚ) - 1 / 2 < x := by
      rcases lt_or_eq_of_le hlo with h | h
      · linarith
      · exfalso
        apply hne
        linarith
    have habs : |x - (k : ℚ)| < 1 / 2 := by
      rw [abs_lt]
      constructor <;> linarith
    rcases lt_or_gt_of_ne hj with h | h
    · have hjk : (j : ℚ) + 1 ≤ k := by exact_mod_cast h
      have : 1 / 2 < |x - (j : ℚ)| := by
        rw [lt_abs]
        left
        linarith
      linarith
    · have hjk : (k : ℚ) + 1 ≤ j := by exact_mod_cast h
      have : 1 / 2 < |x - (j : ℚ)| := by
        rw [lt_abs]
        right
        linarith
      linarith

/-- An instance of `percentLeft_exact`: 56 days left of 365 are 15 percent. -/
theorem percentLeft_exact_witness :
    ((365 : Int) = 365 ∨ (365 : Int) = 366) ∧ (0 : Int) ≤ 56 ∧ (56 : Int) ≤ 365 ∧
    percentLeft (some 56) 365 = Num.fin 15 1 ∧
    ∃ k : Int, percentLeft (some 56) 365 = Num.fin k 1 ∧
      k = ⌊(100 * ((56 : Int) : ℚ)) / ((365 : Int) : ℚ) + 1 / 2⌋ ∧
      k = round ((100 * ((56 : Int) : ℚ)) / ((365 : Int) : ℚ)) ∧
      (∀ j : Int, (100 * ((56 : Int) : ℚ)) / ((365 : Int) : ℚ) ≠ (j : ℚ) + 1 / 2) ∧
      (∀ j : Int, j ≠ k →
        |(100 * ((56 : Int) : ℚ)) / ((365 : Int) : ℚ) - (k : ℚ)|
          < |(100 * ((56 : Int) : ℚ)) / ((365 : Int) : ℚ) - (j : ℚ)|) :=
  ⟨by decide, by decide, by decide, by decide,
   percentLeft_exact 56 365 (by decide) (by decide) (by decide)⟩
/-! ## Sizes -/

/-- The month blocks of the response are drawn from the grid of the current
year with the environment `envOf`, whose `dotSize` comes from the resolved
width and the calendar size. -/
theorem handler_months (q : Query) (nowMs : Int) (w h : Num) (t : Theme)
    (hm : resolveModel (paramOr q.model "iphone_15_pro") = Except.ok (w, h))
    (ht : resolveTheme (paramOr q.theme "graphite_orange") = Except.ok t) :
    (handler q nowMs).map (fun r => r.image.months)
      = Except.ok ((totalCells (getFullYear (nowOf q nowMs))).map
          (monthBlock (envOf q nowMs w t) t.textCol
            (jsOr (jsGet MONTHS (paramOr q.lang "uk")) (jsGet MONTHS "uk"))
            (gap (dotSize (basePx w (scaleOf (paramOr q.calendar_size "standard")))))
            (Num.round (Num.mul (basePx w (scaleOf (paramOr q.calendar_size "standard")))
              (Num.fin 45 100))))) := by
  unfold handler
  simp only [bind, Except.bind, hm, ht]
  rfl

/-- C13 fails as stated: for `iphone_15_pro` the `dotSize` is 21 with
`calendar_size=standard` and 28 with `large`, and 1.3 times 21 is 27.3. -/
theorem dotSize_large_not_scaled :
    dotSizeFor "iphone_15_pro" "standard" = Num.fin 21 1 ∧
    dotSizeFor "iphone_15_pro" "large" = Num.fin 28 1 ∧
    (28 : ℚ) ≠ 13 / 10 * 21 := by
  refine ⟨by decide, by decide, by norm_num⟩

/-- C13 as amended: for every model of the device catalog the `dotSize` of
`calendar_size=large` and of `standard` are integers, and the first differs
from 1.3 times the second by at most 0.7. -/
theorem dotSize_large_near (model : String) (hm : model ∈ MODELS.map Prod.fst) :
    ∃ a b : Int, dotSizeFor model "large" = Num.fin a 1 ∧
      dotSizeFor model "standard" = Num.fin b 1 ∧
      |(a : ℚ) - 13 / 10 * (b : ℚ)| ≤ 7 / 10 := by
  simp only [ MODELS, List.map_cons, List.map_nil, List.mem_cons, List.mem_singleton,
    List.not_mem_nil, or_false] at hm
  rcases hm with h | h | h | h | h | h | h | h | h <;> subst h
  · exact ⟨29, 22, by decide, by decide, by rw [abs_le]; constructor <;> norm_num⟩
  · exact ⟨28, 21, by decide, by decide, by rw [abs_le]; constructor <;> norm_num⟩
  · exact ⟨28, 21, by decide, by decide, by rw [abs_le]; constructor <;> norm_num⟩
  · exact ⟨28, 21, by decide, by decide, by rw [abs_le]; constructor <;> norm_num⟩
  · exact ⟨28, 21, by decide, by decide, by rw [abs_le]; constructor <;> norm_num⟩
  · exact ⟨28, 21, by decide, by decide, by rw [abs_le]; constructor <;> norm_num⟩
  · exact ⟨28, 21, by decide, by decide, by rw [abs_le]; constructor <;> norm_num⟩
  · exact ⟨28, 21, by decide, by decide, by rw [abs_le]; constructor <;> norm_num⟩
  · exact ⟨18, 14, by decide, by decide, by rw [abs_le]; constructor <;> norm_num⟩

/-- An instance of `dotSize_large_near` at `iphone_se`: 18 against 14. -/
theorem dotSize_large_near_witness :
    "iphone_se" ∈ MODELS.map Prod.fst ∧
    dotSizeFor "iphone_se" "large" = Num.fin 18 1 ∧
    dotSizeFor "iphone_se" "standard" = Num.fin 14 1 ∧
    ∃ a b : Int, dotSizeFor "iphone_se" "large" = Num.fin a 1 ∧
      dotSizeFor "iphone_se" "standard" = Num.fin b 1 ∧
      |(a : ℚ) - 13 / 10 * (b : ℚ)| ≤ 7 / 10 :=
  ⟨by decide, by decide, by decide, dotSize_large_near "iphone_se" (by decide)⟩

/-! ## Future cells -/

/-- C14 fails as stated: in the style `lines` (and likewise `bars`) a future
cell is filled with the future-colour and has no border. -/
theorem lines_future_is_filled :
    (renderCell (envStyle "lines") 10 6 "future").style.get "background"
      = some (CssVal.str "#2a2a2a") ∧
    (renderCell (envStyle "lines") 10 6 "future").style.get "border" = none ∧
    (renderCell (envStyle "bars") 10 6 "future").style.get "background"
      = some (CssVal.str "#2a2a2a") ∧
    (renderCell (envStyle "bars") 10 6 "future").style.get "border" = none := by
  decide

/-- C14 as amended: for every future-state cell, the styles `squares`,
`squares_rounded`, `dots` and `dots_mini` give a transparent background with
a 1px border in the future-colour; the styles `lines` and `bars` give a
background in the plain future-colour and no border; the styles `numbers` and
`numbers_bold` give the day number with its text colour set, a transparent
background and no border. -/
theorem renderCell_future_shape (e : Env) (m d : Int) :
    (∀ s : String, s = "squares" ∨ s = "squares_rounded" ∨ s = "dots" ∨ s = "dots_mini" →
      (renderCell { e with style := s } m d "future").style.get "background"
        = some (CssVal.str "transparent") ∧
      (renderCell { e with style := s } m d "future").style.get "border"
        = some (CssVal.border1 e.theme.futureCol) ∧
      (renderCell { e with style := s } m d "future").content = Content.empty) ∧
    (∀ s : String, s = "lines" ∨ s = "bars" →
      (renderCell { e with style := s } m d "future").style.get "background"
        = some (CssVal.str e.theme.futureCol) ∧
      (renderCell { e with style := s } m d "future").style.get "border" = none ∧
      (renderCell { e with style := s } m d "future").content = Content.empty) ∧
    (∀ s : String, s = "numbers" ∨ s = "numbers_bold" →
      (renderCell { e with style := s } m d "future").content = Content.num (Num.ofInt d) ∧
      (renderCell { e with style := s } m d "future").style.get "color"
        = some (CssVal.str (getColor e.weekendMode e.theme e.year "future" m d)) ∧
      (renderCell { e with style := s } m d "future").style.get "background"
        = some (CssVal.str "transparent") ∧
      (renderCell { e with style := s } m d "future").style.get "border" = none) := by
  refine ⟨?_, ?_, ?_⟩
  · intro s hs
    rcases hs with h | h | h | h <;> subst h <;>
      simp [renderCell, Style.get, List.lookup]
  · intro s hs
    rcases hs with h | h <;> subst h <;>
      simp [renderCell, Style.get, List.lookup]
  · intro s hs
    rcases hs with h | h <;> subst h <;>
      simp [renderCell, Style.get, List.lookup]

/-- An instance of `renderCell_future_shape`: the future cell of 6 November 2026
in the style `squares`. -/
theorem renderCell_future_shape_witness :
    ("squares" = "squares" ∨ "squares" = "squares_rounded" ∨ "squares" = "dots" ∨
      "squares" = "dots_mini") ∧
    (renderCell { envAllDots with style := "squares" } 10 6 "future").style.get "background"
      = some (CssVal.str "transparent") ∧
    (renderCell { envAllDots with style := "squares" } 10 6 "future").style.get "border"
      = some (CssVal.border1 envAllDots.theme.futureCol) ∧
    (renderCell { envAllDots with style := "squares" } 10 6 "future").content = Content.empty :=
  ⟨Or.inl rfl, (renderCell_future_shape envAllDots 10 6).1 "squares" (Or.inl rfl)⟩

/-! ## Unrecognised parameter values -/

/-- Two environments that draw every cell alike and agree on the current month,
the current day, the theme and `dotSize` give the same month blocks. -/
theorem monthBlock_congr (e e' : Env)
    (hr : ∀ (m d : Int) (state : String), renderCell e m d state = renderCell e' m d state)
    (hmo : e.month = e'.month) (hd : e.day = e'.day) (ht : e.theme = e'.theme)
    (hds : e.dotSize = e'.dotSize) : monthBlock e = monthBlock e' := by
  funext textCol months gp mfs mc
  unfold monthBlock weekRows
  simp only [hr, hmo, hd, ht, hds]

/-- A style outside the eight styles draws every cell as the style `dots`. -/
theorem renderCell_style_unknown (e : Env) (hs : e.style ∉ styles) (m d : Int)
    (state : String) :
    renderCell e m d state = renderCell { e with style := "dots" } m d state := by
  simp only [styles, List.mem_cons, List.mem_singleton, List.not_mem_nil, or_false,
    not_or] at hs
  obtain ⟨_, h2, h3, h4, h5, h6, h7, h8⟩ := hs
  unfold renderCell
  simp [h2, h3, h4, h5, h6, h7, h8]

/-- A weekend mode outside the three modes colours every cell as the mode
`weekends_only`. -/
theorem getColor_mode_unknown (wm : String) (hw : wm ∉ weekendModes) (t : Theme)
    (year : Option Int) (state : String) (m d : Int) :
    getColor wm t year state m d = getColor "weekends_only" t year state m d := by
  simp only [weekendModes, List.mem_cons, List.mem_singleton, List.not_mem_nil, or_false,
    not_or] at hw
  obtain ⟨h1, _, h3⟩ := hw
  unfold getColor
  simp [h1, h3]

/-- A `style` parameter outside the eight styles gives the response of
`style=dots`. -/
theorem handler_style_unknown (q : Query) (nowMs : Int) (s : String) (hs : s ∉ styles) :
    handler { q with style := some s } nowMs = handler { q with style := some "dots" } nowMs := by
  have key : ∀ (wm : String) (t : Theme) (y mo d : Option Int) (ds : Num),
      monthBlock { style := paramOr (some s) "dots", weekendMode := wm, theme := t, year := y,
                   month := mo, day := d, dotSize := ds }
        = monthBlock { style := paramOr (some "dots") "dots", weekendMode := wm, theme := t,
                       year := y, month := mo, day := d, dotSize := ds } := by
    intro wm t y mo d ds
    refine monthBlock_congr _ _ ?_ rfl rfl rfl rfl
    intro m dd state
    have hd : paramOr (some "dots") "dots" = "dots" := by decide
    rw [hd]
    unfold paramOr
    simp only []
    split_ifs
    · rfl
    · exact renderCell_style_unknown _ hs m dd state
  unfold handler
  simp only [key]

/-- An instance of `handler_style_unknown`: `?style=bogus`. -/
theorem handler_style_unknown_witness :
    "bogus" ∉ styles ∧
    handler { Query.empty with style := some "bogus" } sampleNow
      = handler { Query.empty with style := some "dots" } sampleNow :=
  ⟨by decide, handler_style_unknown Query.empty sampleNow "bogus" (by decide)⟩

/-- A `weekend_mode` parameter outside the three modes gives the response of
`weekend_mode=weekends_only`. -/
theorem handler_weekend_mode_unknown (q : Query) (nowMs : Int) (s : String)
    (hs : s ∉ weekendModes) :
    handler { q with weekend_mode := some s } nowMs
      = handler { q with weekend_mode := some "weekends_only" } nowMs := by
  have key : ∀ (st : String) (t : Theme) (y mo d : Option Int) (ds : Num),
      monthBlock { style := st, weekendMode := paramOr (some s) "weekends_only", theme := t,
                   year := y, month := mo, day := d, dotSize := ds }
        = monthBlock { style := st,
                       weekendMode := paramOr (some "weekends_only") "weekends_only",
                       theme := t, year := y, month := mo, day := d, dotSize := ds } := by
    intro st t y mo d ds
    refine monthBlock_congr _ _ ?_ rfl rfl rfl rfl
    intro m dd state
    have hd : paramOr (some "weekends_only") "weekends_only" = "weekends_only" := by decide
    rw [hd]
    have hc : ∀ st2 m2 d2, getColor (paramOr (some s) "weekends_only") t y st2 m2 d2
        = getColor "weekends_only" t y st2 m2 d2 := by
      intro st2 m2 d2
      unfold paramOr
      simp only []
      split_ifs
      · rfl
      · exact getColor_mode_unknown s hs t y st2 m2 d2
    unfold renderCell
    simp only [hc]
  unfold handler
  simp only [key]

/-- An instance of `handler_weekend_mode_unknown`: `?weekend_mode=bogus`. -/
theorem handler_weekend_mode_unknown_witness :
    "bogus" ∉ weekendModes ∧
    handler { Query.empty with weekend_mode := some "bogus" } sampleNow
      = handler { Query.empty with weekend_mode := some "weekends_only" } sampleNow :=
  ⟨by decide, handler_weekend_mode_unknown Query.empty sampleNow "bogus" (by decide)⟩

/-- A `calendar_size` parameter that is neither a key of `sizeMap` nor a name
inherited from `Object.prototype` gives the response of
`calendar_size=standard`. -/
theorem handler_calendar_size_unknown (q : Query) (nowMs : Int) (s : String)
    (h1 : sizeMap.lookup s = none) (h2 : s ∉ objectPrototypeKeys) :
    handler { q with calendar_size := some s } nowMs
      = handler { q with calendar_size := some "standard" } nowMs := by
  have key : operand (jsOr (jsGet sizeMap (paramOr (some s) "standard"))
        (Lookup.own (Num.fin 1 1)))
      = operand (jsOr (jsGet sizeMap (paramOr (some "standard") "standard"))
        (Lookup.own (Num.fin 1 1))) := by
    have hd : paramOr (some "standard") "standard" = "standard" := by decide
    rw [hd]
    unfold paramOr
    simp only []
    split_ifs
    · rfl
    · rw [jsGet_of_unknown sizeMap s h1 h2]
      rfl
  unfold handler
  simp only [key]

/-- An instance of `handler_calendar_size_unknown`: `?calendar_size=bogus`. -/
theorem handler_calendar_size_unknown_witness :
    sizeMap.lookup "bogus" = none ∧ "bogus" ∉ objectPrototypeKeys ∧
    handler { Query.empty with calendar_size := some "bogus" } sampleNow
      = handler { Query.empty with calendar_size := some "standard" } sampleNow :=
  ⟨by decide, by decide,
   handler_calendar_size_unknown Query.empty sampleNow "bogus" (by decide) (by decide)⟩

/-- A `lang` parameter that is neither a key of `MONTHS` nor a name inherited
from `Object.prototype` gives the response of `lang=uk`. -/
theorem handler_lang_unknown (q : Query) (nowMs : Int) (s : String)
    (h1 : MONTHS.lookup s = none) (h2 : s ∉ objectPrototypeKeys) :
    handler { q with lang := some s } nowMs = handler { q with lang := some "uk" } nowMs := by
  have key : jsOr (jsGet MONTHS (paramOr (some s) "uk")) (jsGet MONTHS "uk")
      = jsOr (jsGet MONTHS (paramOr (some "uk") "uk")) (jsGet MONTHS "uk") := by
    have hd : paramOr (some "uk") "uk" = "uk" := by decide
    rw [hd]
    unfold paramOr
    simp only []
    split_ifs
    · rfl
    · rw [jsGet_of_unknown MONTHS s h1 h2]
      rfl
  unfold handler
  simp only [key]

/-- An instance of `handler_lang_unknown`: `?lang=bogus`. -/
theorem handler_lang_unknown_witness :
    MONTHS.lookup "bogus" = none ∧ "bogus" ∉ objectPrototypeKeys ∧
    handler { Query.empty with lang := some "bogus" } sampleNow
      = handler { Query.empty with lang := some "uk" } sampleNow :=
  ⟨by decide, by decide, handler_lang_unknown Query.empty sampleNow "bogus" (by decide) (by decide)⟩

/-- C12 at `?lang=constructor` and `?calendar_size=constructor`: `constructor` is
not a key of `MONTHS` or `sizeMap`, yet the lookups find the inherited function
`Object`; with it as `lang` every month name is `undefined`, where `lang=uk`
shows the names, and with it as `calendar_size` the scale, `dotSize` and the
gap are `NaN`, where `standard` gives 21 and 7. -/
theorem inherited_lang_and_size_differ :
    MONTHS.lookup "constructor" = none ∧ sizeMap.lookup "constructor" = none ∧
    (handler { Query.empty with lang := some "constructor" } sampleNow).map
        (fun r => r.image.months.map (fun b => b.label.content))
      = Except.ok (List.replicate 12 Content.undef) ∧
    (handler { Query.empty with lang := some "uk" } sampleNow).map
        (fun r => (r.image.months.map (fun b => b.label.content)).take 2)
      = Except.ok [Content.text "Січ", Content.text "Лют"] ∧
    scaleOf "constructor" = Num.nan ∧
    dotSizeFor "iphone_15_pro" "constructor" = Num.nan ∧
    dotSizeFor "iphone_15_pro" "standard" = Num.fin 21 1 ∧
    (handler { Query.empty with calendar_size := some "constructor" } sampleNow).map
        (fun r => r.image.months.map (fun b => b.gridStyle.get "gap"))
      = Except.ok (List.replicate 12 (some (CssVal.px Num.nan))) ∧
    (handler { Query.empty with calendar_size := some "standard" } sampleNow).map
        (fun r => r.image.months.map (fun b => b.gridStyle.get "gap"))
      = Except.ok (List.replicate 12 (some (CssVal.px (Num.fin 7 1)))) := by
  refine ⟨by decide, by decide, ?_, ?_, by decide, by decide, by decide, ?_, ?_⟩
  · rfl
  · rfl
  · rfl
  · rfl

/-! ## The grid and the year -/

/-- C16 at year 0, the year of the request `?timezone=-17765532` at
2026-11-05T00:00Z: the year is a leap year and `getDaysInYear` gives 366, yet
the grid, built from `new Date(0, m, d)`, is the grid of 1900: its February
has 28 day cells and the twelve months have 365 day cells. -/
theorem grid_of_year_zero :
    getFullYear nowYearZero = some 0 ∧
    gregorianLeap 0 ∧ getDaysInYear (some 0) = 366 ∧
    (monthCells (some 0) 1).cells
      = List.replicate 3 none ++ (List.range 28).map (fun (i : Nat) => some ((i : Int) + 1)) ∧
    ((monthCells (some 0) 1).cells.filter (fun c => c.isSome)).length = 28 ∧
    (dayCells (some 0)).length = 365 := by
  refine ⟨by decide, ⟨by decide, Or.inr (by decide)⟩, by decide, by decide, by decide, by decide⟩

/-- C17 at the request `?timezone=-17765532` at 2026-11-05T00:00Z, whose date
is 29 February of year 0: `percentLeft` is 189690 and `percentPassed` is
-189590, and the default footer shows them. -/
theorem percent_out_of_range_in_year_zero :
    getFullYear nowYearZero = some 0 ∧ getMonth nowYearZero = some 1 ∧
    getDate nowYearZero = some 29 ∧
    percentLeft (daysLeft nowYearZero) (getDaysInYear (getFullYear nowYearZero))
      = Num.fin 189690 1 ∧
    percentPassed (percentLeft (daysLeft nowYearZero) (getDaysInYear (getFullYear nowYearZero)))
      = Num.fin (-189590) 1 ∧
    (handler { Query.empty with timezone := some "-17765532" } sampleNow).map
        (fun r => r.image.footer.map (fun f => f.content))
      = Except.ok (some (Content.text "694267 днів · 189690% залишилось")) := by
  refine ⟨by decide, by decide, by decide, by decide, by decide, ?_⟩
  rfl

/-- C18 at the request `?timezone=-17765532` at 2026-11-05T00:00Z, whose date
is 29 February of year 0, the 60th day of a year of 366 days: `getDayOfYear`
counts from `new Date(0, 0, 0)`, which is 31 December 1899, and gives
-693901; `daysLeft` is 694267; the grid has 59 cells of state `past` or
`today` and 306 of state `future`. -/
theorem dayOfYear_in_year_zero :
    getFullYear nowYearZero = some 0 ∧ getMonth nowYearZero = some 1 ∧
    getDate nowYearZero = some 29 ∧
    newDate (some 0) (some 0) (some 0) = newDate (some 1900) (some 0) (some 0) ∧
    getDayOfYear nowYearZero = some (-693901) ∧
    getDaysInYear (some 0) = 366 ∧
    daysLeft nowYearZero = some 694267 ∧
    (elapsedCells (some 0) (some 1) (some 29)).length = 59 ∧
    (futureCells (some 0) (some 1) (some 29)).length = 306 := by
  decide
/-! ## Regular years -/

/-- `YearFromDay` gives the year whose days include the day. -/
theorem YearFromDay_spec (day : Int) :
    DayFromYear (YearFromDay day) ≤ day ∧ day < DayFromYear (YearFromDay day + 1) := by
  have a0 := DayFromYear_est_hi ((400 * day) / 146097 + 1970 - 1)
  have a2 := DayFromYear_est_lo ((400 * day) / 146097 + 1970 + 1 + 1)
  unfold YearFromDay
  simp only []
  generalize hy : (400 * day) / 146097 + 1970 = y0 at *
  have hq : 146097 * (y0 - 1970) ≤ 400 * day ∧ 400 * day < 146097 * (y0 - 1970) + 146097 := by
    omega
  split_ifs with h1 h2
  · exact ⟨h1, by omega⟩
  · simp only [sub_add_cancel]
    exact ⟨by omega, h2⟩
  · exact ⟨by omega, by omega⟩

/-- `getDaysInYear` agrees with the leap-year test of the date arithmetic. -/
theorem getDaysInYear_eq (y : Int) :
    getDaysInYear (some y) = if InLeapYear y then 366 else 365 := by
  unfold getDaysInYear InLeapYear
  simp only [ne_eq, ← Int.dvd_iff_tmod_eq_zero]
  have e4 : (4 : Int) ∣ y ↔ y % 4 = 0 := by omega
  have e100 : (100 : Int) ∣ y ↔ y % 100 = 0 := by omega
  have e400 : (400 : Int) ∣ y ↔ y % 400 = 0 := by omega
  by_cases h4 : y % 4 = 0 <;> by_cases h100 : y % 100 = 0 <;> by_cases h400 : y % 400 = 0 <;>
    simp [h4, h100, h400, e4, e100, e400] <;> omega

/-- In a regular year `getDayOfYear` of a date is the number of its day within
the year, counted from 1, whatever the time of day. -/
theorem getDayOfYear_regular (t : Int) (hy : regularYear (YearFromDay (Day t))) :
    getDayOfYear (some t) = some (Day t - DayFromYear (YearFromDay (Day t)) + 1) := by
  obtain ⟨hq, hlo, hhi⟩ := hy
  have hb := DayFromYear_range _ hlo hhi
  have hsucc := DayFromYear_succ (YearFromDay (Day t))
  have hle : DayFromYear (YearFromDay (Day t)) ≤ DayFromYear (YearFromDay (Day t) + 1) := by
    rw [hsucc]
    split_ifs <;> omega
  have hnq : ¬ (0 ≤ YearFromDay (Day t) ∧ YearFromDay (Day t) ≤ 99) := by omega
  have h0 : monthStart (InLeapYear (YearFromDay (Day t))) 0 = 0 := by
    cases InLeapYear (YearFromDay (Day t)) <;> rfl
  have hs : newDate (some (YearFromDay (Day t))) (some 0) (some 0)
      = some ((DayFromYear (YearFromDay (Day t)) - 1) * msPerDay) := by
    unfold newDate
    simp only [hnq, if_false]
    unfold MakeDay
    have e1 : (0 : Int) / 12 = 0 := by norm_num
    have e2 : (0 : Int) % 12 = 0 := by norm_num
    simp only [e1, e2, add_zero, h0]
    unfold TimeClip msPerDay
    rw [if_pos]
    · constructor <;> omega
  unfold getDayOfYear getFullYear
  simp only [Option.map_some', hs]
  congr 1
  unfold Day msPerDay
  omega

/-- The month table read backwards: a day within the year lies in the month
that `monthOfYearDay` gives. -/
theorem monthOfYearDay_range :
    ∀ leap : Bool, ∀ d : Nat, d < 366 → (d : Int) < (if leap then 366 else 365) →
      0 ≤ monthOfYearDay leap (d : Int) ∧ monthOfYearDay leap (d : Int) ≤ 11 ∧
      monthStart leap (monthOfYearDay leap (d : Int)) ≤ (d : Int) ∧
      (d : Int) < monthStart leap (monthOfYearDay leap (d : Int))
        + monthLen leap (monthOfYearDay leap (d : Int)) := by
  decide

/-- The civil fields of a day are a valid date of its year. -/
theorem civil_valid (day : Int) :
    0 ≤ MonthFromDay day ∧ MonthFromDay day ≤ 11 ∧ 1 ≤ DateFromDay day ∧
    DateFromDay day ≤ monthLength (YearFromDay day) (MonthFromDay day) ∧
    day = MakeDay (YearFromDay day) (MonthFromDay day) (DateFromDay day) := by
  obtain ⟨h1, h2⟩ := YearFromDay_spec day
  have hs := DayFromYear_succ (YearFromDay day)
  rw [hs] at h2
  have hd0 : 0 ≤ day - DayFromYear (YearFromDay day) := by omega
  obtain ⟨n, hn⟩ := Int.eq_ofNat_of_zero_le hd0
  have hlt : (n : Int) < (if InLeapYear (YearFromDay day) then 366 else 365) := by
    rw [← hn]
    split_ifs at h2 ⊢ <;> omega
  have hn366 : n < 366 := by
    split_ifs at hlt <;> omega
  have ht := monthOfYearDay_range (InLeapYear (YearFromDay day)) n hn366 hlt
  have hM : MonthFromDay day = monthOfYearDay (InLeapYear (YearFromDay day)) (n : Int) := by
    rw [MonthFromDay_eq, hn]
  obtain ⟨t1, t2, t3, t4⟩ := ht
  rw [← hM] at t1 t2 t3 t4
  have hD : DateFromDay day
      = day - DayFromYear (YearFromDay day)
        - monthStart (InLeapYear (YearFromDay day)) (MonthFromDay day) + 1 := rfl
  refine ⟨t1, t2, by omega, ?_, ?_⟩
  · unfold monthLength
    omega
  · have hdiv : MonthFromDay day / 12 = 0 := by omega
    have hmod : MonthFromDay day % 12 = MonthFromDay day := by omega
    unfold MakeDay
    simp only [hdiv, hmod, add_zero]
    omega
/-- The grid of a regular year is `yearGrid` of its leap flag. -/
theorem dayCells_eq_yearGrid (y : Int) (hy : regularYear y) :
    dayCells (some y) = yearGrid (InLeapYear y) := by
  rw [dayCells_regular y hy]
  rfl

theorem yearGrid_length (leap : Bool) :
    (yearGrid leap).length = if leap then 366 else 365 := by
  cases leap <;> decide

theorem getDayState_elapsed_iff (month day m d : Int) :
    (getDayState (some month) (some day) m d = "past" ∨
      getDayState (some month) (some day) m d = "today")
      ↔ (m < month ∨ (m = month ∧ d ≤ day)) := by
  unfold getDayState jsLt jsGt jsEq
  simp only [decide_eq_true_eq]
  split_ifs <;> simp <;> omega

theorem getDayState_future_iff (month day m d : Int) :
    getDayState (some month) (some day) m d = "future"
      ↔ ¬ (m < month ∨ (m = month ∧ d ≤ day)) := by
  unfold getDayState jsLt jsGt jsEq
  simp only [decide_eq_true_eq]
  split_ifs <;> simp <;> omega

theorem countP_range_lt (n j : Nat) :
    List.countP (fun (i : Nat) => decide (i < j)) (List.range n) = min j n := by
  induction n with
  | zero => simp
  | succ n ih =>
    rw [List.range_succ, List.countP_append, ih]
    by_cases h : n < j
    · simp [List.countP_cons, h]
      omega
    · simp [List.countP_cons, h]
      omega

/-- The number of elapsed cells among the days `1 .. n` of month `m`. -/
theorem countP_month_elapsed (M D : Int) (m n : Nat) :
    List.countP
        (fun (i : Nat) => decide (((m : Int) < M ∨ ((m : Int) = M ∧ (i : Int) + 1 ≤ D))))
        (List.range n)
      = if (m : Int) < M then n else if (m : Int) = M then min D.toNat n else 0 := by
  by_cases h1 : (m : Int) < M
  · rw [if_pos h1]
    have : List.countP
        (fun (i : Nat) => decide (((m : Int) < M ∨ ((m : Int) = M ∧ (i : Int) + 1 ≤ D))))
        (List.range n) = (List.range n).length := by
      rw [List.countP_eq_length]
      intro a _
      simp [h1]
    rw [this, List.length_range]
  · rw [if_neg h1]
    by_cases h2 : (m : Int) = M
    · rw [if_pos h2, ← countP_range_lt n D.toNat]
      apply List.countP_congr
      intro i _
      simp only [decide_eq_true_eq]
      omega
    · rw [if_neg h2, List.countP_eq_zero]
      intro a _
      simp [h1, h2]

theorem elapsed_sum_table :
    ∀ leap : Bool, ∀ M : Nat, M < 12 → ∀ k : Nat, k < 31 →
      (k : Int) < monthLen leap (M : Int) →
        ((List.range 12).map fun (m : Nat) =>
            if (m : Int) < (M : Int) then (monthLen leap (m : Int)).toNat
            else if (m : Int) = (M : Int) then min (k + 1) (monthLen leap (m : Int)).toNat
            else 0).sum
          = (monthStart leap (M : Int)).toNat + k + 1 ∧
        0 ≤ monthStart leap (M : Int) := by
  decide

/-- In `yearGrid` the number of cells of state `past` or `today` is the number
of the current day within the year. -/
theorem yearGrid_elapsed (leap : Bool) (M D : Int) (hM0 : 0 ≤ M) (hM1 : M ≤ 11)
    (hD0 : 1 ≤ D) (hD1 : D ≤ monthLen leap M) :
    ((List.countP (fun c : Int × Int =>
        decide (getDayState (some M) (some D) c.1 c.2 = "past") ||
        decide (getDayState (some M) (some D) c.1 c.2 = "today")) (yearGrid leap) : Nat) : Int)
      = monthStart leap M + D := by
  have hb := monthLen_bounds leap M
  obtain ⟨Mn, rfl⟩ := Int.eq_ofNat_of_zero_le hM0
  obtain ⟨k, hk⟩ := Int.eq_ofNat_of_zero_le (show 0 ≤ D - 1 by omega)
  have hD : D = (k : Int) + 1 := by omega
  subst hD
  have ht := elapsed_sum_table leap Mn (by omega) k (by omega) (by omega)
  unfold yearGrid
  rw [List.countP_flatMap]
  have hmap : List.map
        (List.countP (fun c : Int × Int =>
            decide (getDayState (some (Mn : Int)) (some ((k : Int) + 1)) c.1 c.2 = "past") ||
            decide (getDayState (some (Mn : Int)) (some ((k : Int) + 1)) c.1 c.2 = "today"))
          ∘ fun (m : Nat) =>
            (List.range (monthLen leap (m : Int)).toNat).map
              fun (i : Nat) => ((m : Int), (i : Int) + 1))
        (List.range 12)
      = (List.range 12).map fun (m : Nat) =>
            if (m : Int) < (Mn : Int) then (monthLen leap (m : Int)).toNat
            else if (m : Int) = (Mn : Int) then min (k + 1) (monthLen leap (m : Int)).toNat
            else 0 := by
    apply List.map_congr_left
    intro m _
    simp only [Function.comp, List.countP_map]
    have hk1 : ((k : Int) + 1).toNat = k + 1 := by omega
    rw [← hk1, ← countP_month_elapsed (Mn : Int) ((k : Int) + 1) m]
    apply List.countP_congr
    intro i _
    simp only [Function.comp, Bool.or_eq_true, decide_eq_true_eq]
    exact getDayState_elapsed_iff (Mn : Int) ((k : Int) + 1) (m : Int) ((i : Int) + 1)
  rw [hmap, ht.1]
  have := ht.2
  omega
/-- In a regular year the grid has as many day cells as `getDaysInYear` says,
and February has 29 of them exactly in a leap year, else 28. -/
theorem grid_regular (y : Int) (hy : regularYear y) :
    (dayCells (some y)).length = getDaysInYear (some y) ∧
    (monthCells (some y) 1).daysInMonth = some (if gregorianLeap y then 29 else 28) ∧
    (((monthCells (some y) 1).cells.filter (fun c => c.isSome)).length = 29 ↔ gregorianLeap y) ∧
    (¬ gregorianLeap y →
      ((monthCells (some y) 1).cells.filter (fun c => c.isSome)).length = 28) := by
  have hg : gregorianLeap y ↔ InLeapYear y = true := by
    unfold gregorianLeap InLeapYear
    simp only [Bool.and_eq_true, Bool.or_eq_true, decide_eq_true_eq]
    omega
  obtain ⟨k, _, hk⟩ := monthCells_regular y 1 hy (by omega) (by omega)
  have hlen : monthLength y 1 = if InLeapYear y then 29 else 28 := by
    unfold monthLength monthLen
    simp
  have hcount : ((monthCells (some y) 1).cells.filter (fun c => c.isSome)).length
      = (monthLength y 1).toNat := by
    rw [hk]
    simp only [List.filter_append]
    have h1 : (List.replicate k (none : Option Int)).filter (fun c => c.isSome) = [] := by
      rw [List.filter_eq_nil_iff]
      intro a ha
      rw [List.eq_of_mem_replicate ha]
      simp
    have h2 : ((List.range (monthLength y 1).toNat).map
        (fun (i : Nat) => some ((i : Int) + 1))).filter (fun c => c.isSome)
        = (List.range (monthLength y 1).toNat).map (fun (i : Nat) => some ((i : Int) + 1)) := by
      rw [List.filter_eq_self]
      intro a ha
      obtain ⟨i, _, rfl⟩ := List.mem_map.mp ha
      rfl
    rw [h1, h2, List.nil_append, List.length_map, List.length_range]
  refine ⟨?_, ?_, ?_, ?_⟩
  · rw [dayCells_eq_yearGrid y hy, yearGrid_length, getDaysInYear_eq]
    split_ifs <;> rfl
  · rw [hk]
    simp only [hlen]
    by_cases h : InLeapYear y = true
    · rw [if_pos h, if_pos (hg.mpr h)]
    · rw [if_neg h, if_neg (fun hc => h (hg.mp hc))]
  · rw [hcount, hlen, hg]
    by_cases h : InLeapYear y = true
    · simp [h]
    · simp [h]
  · intro hn
    have h : ¬ InLeapYear y = true := fun hc => hn (hg.mpr hc)
    rw [hcount, hlen, if_neg h]
    rfl

/-- An instance of `grid_regular`: 2024 is a leap year with 366 day cells. -/
theorem grid_regular_witness :
    regularYear 2024 ∧ (dayCells (some 2024)).length = 366 ∧
    (dayCells (some 2024)).length = getDaysInYear (some 2024) :=
  ⟨by decide, by decide, (grid_regular 2024 (by decide)).1⟩

/-- In a regular year, for a date at any time of day: `getDayOfYear` is the
ordinal of the date, from 1 on 1 January to `getDaysInYear` on 31 December; it
is the number of cells of state `past` or `today`; `daysLeft` is the number
of cells of state `future` and lies between 0 and `getDaysInYear - 1`. -/
theorem dayOfYear_regular (t : Int) (hy : regularYear (YearFromDay (Day t))) :
    getDayOfYear (some t)
      = some (monthStart (InLeapYear (YearFromDay (Day t))) (MonthFromDay (Day t))
          + DateFromDay (Day t)) ∧
    (∀ n : Int, getDayOfYear (some t) = some n →
      1 ≤ n ∧ n ≤ getDaysInYear (getFullYear (some t)) ∧
      (getMonth (some t) = some 0 → getDate (some t) = some 1 → n = 1) ∧
      (getMonth (some t) = some 11 → getDate (some t) = some 31 →
        n = getDaysInYear (getFullYear (some t))) ∧
      ((elapsedCells (getFullYear (some t)) (getMonth (some t)) (getDate (some t))).length : Int)
        = n ∧
      daysLeft (some t) = some (getDaysInYear (getFullYear (some t)) - n) ∧
      ((futureCells (getFullYear (some t)) (getMonth (some t)) (getDate (some t))).length : Int)
        = getDaysInYear (getFullYear (some t)) - n ∧
      0 ≤ getDaysInYear (getFullYear (some t)) - n ∧
      getDaysInYear (getFullYear (some t)) - n < getDaysInYear (getFullYear (some t))) := by
  obtain ⟨c1, c2, c3, c4, c5⟩ := civil_valid (Day t)
  have hdy := getDayOfYear_regular t hy
  have hD : DateFromDay (Day t)
      = Day t - DayFromYear (YearFromDay (Day t))
        - monthStart (InLeapYear (YearFromDay (Day t))) (MonthFromDay (Day t)) + 1 := rfl
  have hord : Day t - DayFromYear (YearFromDay (Day t)) + 1
      = monthStart (InLeapYear (YearFromDay (Day t))) (MonthFromDay (Day t))
        + DateFromDay (Day t) := by omega
  have hr := monthOfYearDay_start (InLeapYear (YearFromDay (Day t))) (MonthFromDay (Day t))
    (DateFromDay (Day t)) c1 c2 c3 c4
  have hdiy := getDaysInYear_eq (YearFromDay (Day t))
  have hel := yearGrid_elapsed (InLeapYear (YearFromDay (Day t))) (MonthFromDay (Day t))
    (DateFromDay (Day t)) c1 c2 c3 c4
  have hgrid := dayCells_eq_yearGrid (YearFromDay (Day t)) hy
  have hlen := yearGrid_length (InLeapYear (YearFromDay (Day t)))
  refine ⟨by rw [hdy, hord], ?_⟩
  intro n hn
  rw [hdy, hord] at hn
  have hn' : monthStart (InLeapYear (YearFromDay (Day t))) (MonthFromDay (Day t))
      + DateFromDay (Day t) = n := by
    injection hn
  have hfy : getFullYear (some t) = some (YearFromDay (Day t)) := rfl
  have hfm : getMonth (some t) = some (MonthFromDay (Day t)) := rfl
  have hfd : getDate (some t) = some (DateFromDay (Day t)) := rfl
  rw [hfy, hfm, hfd, hdiy]
  have hrange : 1 ≤ n ∧ n ≤ (if InLeapYear (YearFromDay (Day t)) = true then 366 else 365) := by
    have := hr.2
    split_ifs at this ⊢ <;> omega
  have helc : ((elapsedCells (some (YearFromDay (Day t))) (some (MonthFromDay (Day t)))
      (some (DateFromDay (Day t)))).length : Int) = n := by
    unfold elapsedCells
    rw [← List.countP_eq_length_filter, hgrid, hel, hn']
  have hfut : ((futureCells (some (YearFromDay (Day t))) (some (MonthFromDay (Day t)))
      (some (DateFromDay (Day t)))).length : Int)
      = (if InLeapYear (YearFromDay (Day t)) = true then 366 else 365) - n := by
    have hsplit := List.length_eq_countP_add_countP
      (p := fun c : Int × Int =>
        decide (getDayState (some (MonthFromDay (Day t))) (some (DateFromDay (Day t))) c.1 c.2
          = "past") ||
        decide (getDayState (some (MonthFromDay (Day t))) (some (DateFromDay (Day t))) c.1 c.2
          = "today"))
      (dayCells (some (YearFromDay (Day t))))
    have hfc : (futureCells (some (YearFromDay (Day t))) (some (MonthFromDay (Day t)))
        (some (DateFromDay (Day t)))).length
        = List.countP (fun a : Int × Int => decide ¬ ((
            decide (getDayState (some (MonthFromDay (Day t))) (some (DateFromDay (Day t)))
              a.1 a.2 = "past") ||
            decide (getDayState (some (MonthFromDay (Day t))) (some (DateFromDay (Day t)))
              a.1 a.2 = "today")) = true))
          (dayCells (some (YearFromDay (Day t)))) := by
      unfold futureCells
      rw [← List.countP_eq_length_filter]
      apply List.countP_congr
      intro c _
      simp only [decide_eq_true_eq, Bool.or_eq_true, decide_not, Bool.not_eq_true']
      rw [getDayState_future_iff]
      have := getDayState_elapsed_iff (MonthFromDay (Day t)) (DateFromDay (Day t)) c.1 c.2
      constructor
      · intro h
        by_contra hc
        simp only [Bool.not_eq_false, Bool.or_eq_true, decide_eq_true_eq] at hc
        exact h (this.mp hc)
      · intro h hc
        have := this.mpr hc
        simp [this] at h
    have hel2 : (List.countP (fun c : Int × Int =>
        decide (getDayState (some (MonthFromDay (Day t))) (some (DateFromDay (Day t))) c.1 c.2
          = "past") ||
        decide (getDayState (some (MonthFromDay (Day t))) (some (DateFromDay (Day t))) c.1 c.2
          = "today")) (dayCells (some (YearFromDay (Day t)))) : Int) = n := by
      rw [hgrid, hel, hn']
    have hl : ((dayCells (some (YearFromDay (Day t)))).length : Int)
        = (if InLeapYear (YearFromDay (Day t)) = true then 366 else 365) := by
      rw [hgrid, hlen]
      split_ifs <;> rfl
    rw [hfc]
    omega
  refine ⟨hrange.1, hrange.2, ?_, ?_, helc, ?_, hfut, by omega, by omega⟩
  · intro h0 h1
    injection h0 with h0
    injection h1 with h1
    rw [h0, h1] at hn'
    have : monthStart (InLeapYear (YearFromDay (Day t))) 0 = 0 := by
      cases InLeapYear (YearFromDay (Day t)) <;> rfl
    omega
  · intro h0 h1
    injection h0 with h0
    injection h1 with h1
    rw [h0, h1] at hn'
    have e0 : monthStart false 11 = 334 := rfl
    have e1 : monthStart true 11 = 335 := rfl
    cases hl : InLeapYear (YearFromDay (Day t))
    · rw [hl, e0] at hn'
      simp only [Bool.false_eq_true, if_false]
      omega
    · rw [hl, e1] at hn'
      simp only [if_true]
      omega
  · unfold daysLeft
    rw [hdy, hord, hfy, hdiy, hn']
    rfl
/-- An instance of `dayOfYear_regular`: 5 November 2026 is day 309. -/
theorem dayOfYear_regular_witness :
    regularYear (YearFromDay (Day 1793844000000)) ∧
    getDateInTimezone sampleNow (parseFloat "2") = some 1793844000000 ∧
    getDayOfYear (some 1793844000000) = some (304 + 5) ∧
    getDayOfYear (some 1793844000000)
      = some (monthStart (InLeapYear (YearFromDay (Day 1793844000000)))
          (MonthFromDay (Day 1793844000000)) + DateFromDay (Day 1793844000000)) :=
  ⟨by decide, by decide, by decide, (dayOfYear_regular 1793844000000 (by decide)).1⟩

/-- In a regular year `percentLeft` and `percentPassed` are integers between 0
and 100 whose sum is 100. -/
theorem percent_regular (t : Int) (hy : regularYear (YearFromDay (Day t))) :
    ∃ pl pp : Int,
      percentLeft (daysLeft (some t)) (getDaysInYear (getFullYear (some t))) = Num.fin pl 1 ∧
      (percentPassed
        (percentLeft (daysLeft (some t)) (getDaysInYear (getFullYear (some t))))).toInt
        = some pp ∧
      pl + pp = 100 ∧ 0 ≤ pl ∧ pl ≤ 100 ∧ 0 ≤ pp ∧ pp ≤ 100 := by
  obtain ⟨h1, h2⟩ := dayOfYear_regular t hy
  obtain ⟨n1, n2, _, _, _, hdl, _, hlo, hhi⟩ := h2 _ h1
  have hfy : getFullYear (some t) = some (YearFromDay (Day t)) := rfl
  have hdiy := getDaysInYear_eq (YearFromDay (Day t))
  rw [hfy] at hdl hlo hhi n2 ⊢
  have hpos : 0 < getDaysInYear (some (YearFromDay (Day t))) := by
    rw [hdiy]
    split_ifs <;> omega
  rw [hdl, percentLeft_eq _ _ hpos]
  generalize hd : getDaysInYear (some (YearFromDay (Day t))) = diy at *
  generalize hl : diy - (monthStart (InLeapYear (YearFromDay (Day t))) (MonthFromDay (Day t))
    + DateFromDay (Day t)) = dl at *
  have hdiy2 : diy = 365 ∨ diy = 366 := by
    split_ifs at hdiy <;> omega
  have hk : 0 ≤ (2 * (dl * 1 * 100) + 1 * diy * 1) / (2 * (1 * diy * 1)) ∧
      (2 * (dl * 1 * 100) + 1 * diy * 1) / (2 * (1 * diy * 1)) ≤ 100 := by
    rcases hdiy2 with h | h <;> subst h <;> omega
  refine ⟨_, 100 - (2 * (dl * 1 * 100) + 1 * diy * 1) / (2 * (1 * diy * 1)), rfl, ?_, ?_,
    hk.1, hk.2, ?_, ?_⟩
  · simp only [percentPassed, Num.sub, Num.add, Num.neg, Num.ofInt, Num.toInt]
    have e : (1 : Int) * 1 = 1 := by norm_num
    rw [e]
    simp only [Int.emod_one, if_true, Int.ediv_one]
    congr 1
    omega
  · omega
  · omega
  · omega

/-- An instance of `percent_regular`: 15 and 85 on 5 November 2026. -/
theorem percent_regular_witness :
    regularYear (YearFromDay (Day 1793844000000)) ∧
    percentLeft (daysLeft (some 1793844000000))
      (getDaysInYear (getFullYear (some 1793844000000))) = Num.fin 15 1 ∧
    ∃ pl pp : Int,
      percentLeft (daysLeft (some 1793844000000))
        (getDaysInYear (getFullYear (some 1793844000000))) = Num.fin pl 1 ∧
      (percentPassed (percentLeft (daysLeft (some 1793844000000))
        (getDaysInYear (getFullYear (some 1793844000000))))).toInt = some pp ∧
      pl + pp = 100 ∧ 0 ≤ pl ∧ pl ≤ 100 ∧ 0 ≤ pp ∧ pp ≤ 100 :=
  ⟨by decide, by decide, percent_regular 1793844000000 (by decide)⟩

/-! ## Columns and week rows -/

theorem newDate_dateYear (y : Int) (m d : Option Int) :
    newDate (some y) m d = newDate (some (dateYear y)) m d := by
  cases m with
  | none => rfl
  | some m =>
    cases d with
    | none => rfl
    | some d =>
      unfold newDate dateYear
      simp only []
      by_cases h : 0 ≤ y ∧ y ≤ 99
      · have h2 : ¬ (0 ≤ 1900 + y ∧ 1900 + y ≤ 99) := by omega
        simp only [h, h2, and_self, if_true, if_false]
      · simp only [h, if_false]

theorem monthCells_dateYear (y m : Int) :
    monthCells (some y) m = monthCells (some (dateYear y)) m := by
  unfold monthCells
  rw [newDate_dateYear y (some (m + 1)) (some 0), newDate_dateYear y (some m) (some 1)]

theorem isWeekend_dateYear (y m d : Int) :
    isWeekend (some y) m d = isWeekend (some (dateYear y)) m d := by
  unfold isWeekend
  rw [newDate_dateYear y (some m) (some d)]

theorem regularYear_dateYear (y : Int) (hy : inRangeYear y) : regularYear (dateYear y) := by
  unfold inRangeYear at hy
  unfold regularYear dateYear
  split_ifs <;> omega

/-- `MakeDay` counts days on from the first of the month. -/
theorem MakeDay_add (y m d : Int) : MakeDay y m d = MakeDay y m 1 + (d - 1) := by
  unfold MakeDay
  simp only []
  omega

/-- In a regular year the offset of a month is the Monday-first weekday of its
first day, and a valid date is a weekend day exactly when its weekday is 0
or 6. -/
theorem offset_and_weekend_regular (y m : Int) (hy : regularYear y) (hm0 : 0 ≤ m)
    (hm1 : m ≤ 11) :
    (monthCells (some y) m).offset = some ((WeekDay (MakeDay y m 1) + 6) % 7) ∧
    (∀ d : Int, 1 ≤ d → d ≤ monthLength y m →
      (isWeekend (some y) m d = true ↔
        (WeekDay (MakeDay y m d) = 0 ∨ WeekDay (MakeDay y m d) = 6))) := by
  have hb := monthLen_bounds (InLeapYear y) m
  constructor
  · have hv := newDate_valid y m 1 hy hm0 hm1 (le_refl _) (by unfold monthLength; omega)
    unfold monthCells
    simp only [hv, getDay, Option.map_some', Day_mul]
    congr 1
    have : 0 ≤ WeekDay (MakeDay y m 1) := by unfold WeekDay; omega
    rw [Int.tmod_eq_emod] <;> omega
  · intro d hd0 hd1
    have hv := newDate_valid y m d hy hm0 hm1 hd0 hd1
    unfold isWeekend
    simp only [hv, getDay, Option.map_some', Day_mul, Bool.or_eq_true, decide_eq_true_eq,
      Option.some.injEq]

/-- C20 fails as stated: in 275760, the year of the request
`?timezone=2399495580` at 2026-11-05T00:00Z, the time values end on
13 September, so `new Date(275760, 9, 0)` is invalid, September to December
have no cells and occupy no week row. -/
theorem months_without_rows_in_last_year :
    getFullYear nowLastYear = some 275760 ∧
    (monthCells (some 275760) 8).daysInMonth = none ∧
    (monthCells (some 275760) 8).cells = [] ∧
    ((monthCells (some 275760) 8).cells.length + 6) / 7 = 0 ∧
    (handler { Query.empty with timezone := some "2399495580" } sampleNow).map
        (fun r => r.image.months.map (fun b => b.rows.length))
      = Except.ok [5, 5, 6, 5, 5, 6, 5, 5, 0, 0, 0, 0] := by
  refine ⟨by decide, by decide, by decide, by decide, ?_⟩
  rfl

theorem getElem?_cells (k n i : Nat) (hi : i < n) :
    (List.replicate k (none : Option Int) ++
        (List.range n).map (fun (j : Nat) => some ((j : Int) + 1)))[k + i]?
      = some (some ((i : Int) + 1)) := by
  rw [List.getElem?_append_right (by simp)]
  simp [hi]

theorem weekRows_length (e : Env) (gp : Num) (m : Int) (cells : List (Option Int)) :
    (weekRows e gp m cells).length = (cells.length + 6) / 7 := by
  unfold weekRows
  simp

/-- C20 as amended: for every year from -271820 to 275759, every month `m` and
every day cell `d` of the month: the offset is between 0 and 6, the cell of
`d` is at index `offset + d - 1` of the cell sequence, `isWeekend(m, d)` holds
exactly when the column `(offset + d - 1) mod 7` is 5 or 6, and the month
occupies between 4 and 6 week rows. -/
theorem cell_column (y m d : Int) (hy : inRangeYear y) (hm0 : 0 ≤ m) (hm1 : m ≤ 11)
    (hd : some d ∈ (monthCells (some y) m).cells) :
    ∃ offset : Nat, offset ≤ 6 ∧
      (monthCells (some y) m).offset = some (offset : Int) ∧
      1 ≤ d ∧ (monthCells (some y) m).daysInMonth = some (monthLength (dateYear y) m) ∧
      d ≤ monthLength (dateYear y) m ∧
      (monthCells (some y) m).cells[offset + (d - 1).toNat]? = some (some d) ∧
      (isWeekend (some y) m d = true ↔
        (((offset : Int) + d - 1) % 7 = 5 ∨ ((offset : Int) + d - 1) % 7 = 6)) ∧
      4 ≤ ((monthCells (some y) m).cells.length + 6) / 7 ∧
      ((monthCells (some y) m).cells.length + 6) / 7 ≤ 6 ∧
      (∀ (e : Env) (gp : Num),
        (weekRows e gp m (monthCells (some y) m).cells).length
          = ((monthCells (some y) m).cells.length + 6) / 7) := by
  have hr := regularYear_dateYear y hy
  rw [monthCells_dateYear, isWeekend_dateYear] at *
  generalize dateYear y = yr at *
  obtain ⟨k, hk6, hk⟩ := monthCells_regular yr m hr hm0 hm1
  obtain ⟨hoff, hwk⟩ := offset_and_weekend_regular yr m hr hm0 hm1
  have hb := monthLen_bounds (InLeapYear yr) m
  have hlen : 28 ≤ monthLength yr m ∧ monthLength yr m ≤ 31 := hb
  rw [hk] at hd hoff ⊢
  simp only [List.mem_append, List.mem_map, List.mem_range] at hd
  have hd' : ∃ i : Nat, i < (monthLength yr m).toNat ∧ (i : Int) + 1 = d := by
    rcases hd with h | ⟨i, hi, he⟩
    · have := List.eq_of_mem_replicate h
      cases this
    · exact ⟨i, hi, by injection he⟩
  obtain ⟨i, hi, rfl⟩ := hd'
  have hkoff : (k : Int) = (WeekDay (MakeDay yr m 1) + 6) % 7 := by
    simp only [Option.some.injEq] at hoff
    exact hoff
  refine ⟨k, hk6, rfl, by omega, rfl, by omega, ?_, ?_, ?_, ?_, ?_⟩
  · have e : ((i : Int) + 1 - 1).toNat = i := by omega
    simp only [e]
    exact getElem?_cells k _ i hi
  · rw [hwk ((i : Int) + 1) (by omega) (by omega), MakeDay_add yr m ((i : Int) + 1)]
    unfold WeekDay at hkoff ⊢
    omega
  · simp only [List.length_append, List.length_replicate, List.length_map, List.length_range]
    omega
  · simp only [List.length_append, List.length_replicate, List.length_map, List.length_range]
    omega
  · intro e gp
    exact weekRows_length e gp m _

/-- An instance of `cell_column`: 7 November 2026, a Saturday, is at index 12 of
November, in column 5. -/
theorem cell_column_witness :
    inRangeYear 2026 ∧ some 7 ∈ (monthCells (some 2026) 10).cells ∧
    (monthCells (some 2026) 10).offset = some 6 ∧
    (monthCells (some 2026) 10).cells[6 + 6]? = some (some 7) ∧
    isWeekend (some 2026) 10 7 = true ∧
    ∃ offset : Nat, offset ≤ 6 ∧
      (monthCells (some 2026) 10).offset = some (offset : Int) ∧
      1 ≤ (7 : Int) ∧
      (monthCells (some 2026) 10).daysInMonth = some (monthLength (dateYear 2026) 10) ∧
      (7 : Int) ≤ monthLength (dateYear 2026) 10 ∧
      (monthCells (some 2026) 10).cells[offset + ((7 : Int) - 1).toNat]? = some (some 7) ∧
      (isWeekend (some 2026) 10 7 = true ↔
        (((offset : Int) + 7 - 1) % 7 = 5 ∨ ((offset : Int) + 7 - 1) % 7 = 6)) ∧
      4 ≤ ((monthCells (some 2026) 10).cells.length + 6) / 7 ∧
      ((monthCells (some 2026) 10).cells.length + 6) / 7 ≤ 6 ∧
      (∀ (e : Env) (gp : Num),
        (weekRows e gp 10 (monthCells (some 2026) 10).cells).length
          = ((monthCells (some 2026) 10).cells.length + 6) / 7) :=
  ⟨by decide, by decide, by decide, by decide, by decide,
   cell_column 2026 10 7 (by decide) (by decide) (by decide) (by decide)⟩
/-- The rounding of `percentLeft` has a margin: every rational within 1/732 of
the exact value `100 * daysLeft / daysInYear` rounds to `percentLeft`, so an
error of that size in evaluating the quotient does not change the result. -/
theorem percentLeft_margin (dl diy : Int) (hy : diy = 365 ∨ diy = 366) (x : ℚ)
    (hx : |x - (100 * (dl : ℚ)) / (diy : ℚ)| < 1 / 732) :
    percentLeft (some dl) diy = Num.fin ⌊x + 1 / 2⌋ 1 := by
  have hd : 0 < diy := by omega
  have hdq : (0 : ℚ) < (diy : ℚ) := by exact_mod_cast hd
  rw [percentLeft_eq dl diy hd]
  congr 1
  symm
  rw [Int.floor_eq_iff]
  set k : Int := (2 * (dl * 1 * 100) + 1 * diy * 1) / (2 * (1 * diy * 1)) with hk
  set e : ℚ := (100 * (dl : ℚ)) / (diy : ℚ) with he
  have hed : e * (diy : ℚ) = 100 * (dl : ℚ) := by
    rw [he]
    field_simp
  have hk1 : 2 * diy * k + 1 ≤ 200 * dl + diy := by
    rcases hy with h | h <;> subst h <;> omega
  have hk2 : 200 * dl + diy + 1 ≤ 2 * diy * k + 2 * diy := by
    rcases hy with h | h <;> subst h <;> omega
  have hk1q : (2 * diy * k + 1 : ℚ) ≤ 200 * dl + diy := by exact_mod_cast hk1
  have hk2q : (200 * dl + diy + 1 : ℚ) ≤ 2 * diy * k + 2 * diy := by exact_mod_cast hk2
  have hdle : (diy : ℚ) ≤ 366 := by
    rcases hy with h | h <;> subst h <;> norm_num
  rw [abs_lt] at hx
  obtain ⟨hx1, hx2⟩ := hx
  -- bounds on the exact value, scaled by the year length
  have hlo : ((k : ℚ) - 1 / 2) * diy + 1 / 2 ≤ e * diy := by
    rw [hed]
    linarith
  have hhi : e * diy ≤ ((k : ℚ) + 1 / 2) * diy - 1 / 2 := by
    rw [hed]
    linarith
  have hm : (1 : ℚ) / 732 * diy ≤ 1 / 2 := by
    linarith
  constructor
  · have : (k : ℚ) * diy ≤ (x + 1 / 2) * diy := by
      have h3 : (e - 1 / 732) * diy ≤ x * diy :=
        mul_le_mul_of_nonneg_right (by linarith) (le_of_lt hdq)
      nlinarith
    exact le_of_mul_le_mul_right this hdq
  · have : (x + 1 / 2) * diy < ((k : ℚ) + 1) * diy := by
      have h3 : x * diy < (e + 1 / 732) * diy :=
        mul_lt_mul_of_pos_right (by linarith) hdq
      nlinarith
    exact lt_of_mul_lt_mul_right this (le_of_lt hdq)

/-- An instance of `percentLeft_margin`: 56 days left of 365, the quotient
known only as 15.3425. -/
theorem percentLeft_margin_witness :
    |(153425 / 10000 : ℚ) - (100 * ((56 : Int) : ℚ)) / ((365 : Int) : ℚ)| < 1 / 732 ∧
    percentLeft (some 56) 365 = Num.fin ⌊(153425 / 10000 : ℚ) + 1 / 2⌋ 1 :=
  ⟨by rw [abs_lt]; constructor <;> norm_num,
   percentLeft_margin 56 365 (Or.inl rfl) (153425 / 10000)
     (by rw [abs_lt]; constructor <;> norm_num)⟩

end Wallpaper
